import Mathlib

/-!
Verification development for the Maya sensing subsystem
(`Source/Sensors.cpp`, `Include/Sensors.h`).

The C++ code is embedded shallowly:

* `PerfStatCounters` keeps three parallel, always equal-length vectors
  `fds`, `values`, `prevValues`, indexed in lockstep.  They are modelled
  as one list of `PerfSlot` records.
* Machine counters are unsigned 64-bit values read from the kernel; they
  are modelled as `Nat` (the C++ code only stores them and converts them
  to `double`; it never does wrapping arithmetic on them).
* `double` arithmetic on sensor values is modelled over `ℚ`.
* The OS (`perf_event_open`, `read`, `clock_gettime`, sysfs file reads)
  is modelled by oracles passed explicitly to each operation.
* Fatal paths (`std::exit(EXIT_FAILURE)`) are modelled by `Option`:
  `none` is process termination.

The numeric `Vector` class lives in `MathSupport.h`, which is not part of
the sources here; its elementwise operations are modelled from the spec
(`vecAdd`, `vecSub` below).
-/

/-- One configured perf event slot of a `PerfStatCounters` group:
`fd` (file descriptor, `-1` unopened/closed, `-2` permanently
unsupported), the current raw counter `value` and the previous raw
counter `prevValue` (both `uint64_t` in the source). -/
structure PerfSlot where
  fd : Int
  value : Nat
  prevValue : Nat
deriving Repr, DecidableEq

/-- Outcome of one `perf_event_open` system call: a valid descriptor
(non-negative), failure with `errno == ENOENT` ("not supported"), or any
other failure. -/
inductive PerfOpenResult where
  | ok (fd : Nat)
  | enoent
  | otherError
deriving Repr, DecidableEq

/-- Modelled from the spec (the `Vector` class of `MathSupport.h` is not
among the sources): elementwise addition of two equal-length numeric
vectors. -/
def vecAdd (a b : List ℚ) : List ℚ := List.zipWith (fun x y => x + y) a b

/-- Modelled from the spec (the `Vector` class of `MathSupport.h` is not
among the sources): elementwise subtraction of two equal-length numeric
vectors. -/
def vecSub (a b : List ℚ) : List ℚ := List.zipWith (fun x y => x - y) a b

namespace PerfStatCounters

/-- The loop body of `PerfStatCounters::createCounterFds`: slot `m` of
the list receives the result of `perf_event_open` number `i + m` from
the oracle `os`.  On `ENOENT` the slot is marked unsupported (`fd = -2`)
and its values are zeroed; on any other failure the process exits
(`none`); on success the descriptor is stored and the stored values are
left unchanged.  The second component records the indices of the
`perf_event_open` calls actually issued.  The loop bound in the source
is `ctrNames.size()`, which equals the number of slots at every call
site (constructor and reactivation both pass lists of the group's
width). -/
def createSlots (os : Nat → PerfOpenResult) : Nat → List PerfSlot → Option (List PerfSlot) × List Nat
  | _, [] => (some [], [])
  | i, s :: rest =>
    match os i with
    | .otherError => (none, [i])
    | .enoent =>
        let r := createSlots os (i+1) rest
        (r.1.map (fun l => (⟨-2, 0, 0⟩ : PerfSlot) :: l), i :: r.2)
    | .ok fd =>
        let r := createSlots os (i+1) rest
        (r.1.map (fun l => (⟨(fd : Int), s.value, s.prevValue⟩ : PerfSlot) :: l), i :: r.2)

/-- `PerfStatCounters::createCounterFds`: fails fatally (with no OS
call) if the type list and the event list have different lengths,
otherwise runs the creation loop over the slots. -/
def createCounterFds (st : List PerfSlot) (typeIds ctrNames : List Nat)
    (os : Nat → PerfOpenResult) : Option (List PerfSlot) × List Nat :=
  if typeIds.length = ctrNames.length then createSlots os 0 st else (none, [])

/-- The `PerfStatCounters` constructor: checks the length precondition,
initializes one slot (`fd = -1`, value `0`) per configured event, calls
`createCounterFds`, and finally copies `values` into `prevValues`. -/
def mkPerfStatCounters (typeIds ctrNames : List Nat) (os : Nat → PerfOpenResult) :
    Option (List PerfSlot) × List Nat :=
  if typeIds.length = ctrNames.length then
    let st0 : List PerfSlot := ctrNames.map (fun _ => ⟨-1, 0, 0⟩)
    let r := createCounterFds st0 typeIds ctrNames os
    (r.1.map (fun l => l.map (fun s => ⟨s.fd, s.value, s.value⟩)), r.2)
  else (none, [])

/-- `PerfStatCounters::enable`: issues `PERF_EVENT_IOC_RESET` and
`PERF_EVENT_IOC_ENABLE` on every open descriptor.  Both act on
kernel-side counter state only; the object's stored vectors are
unchanged. -/
def enable (st : List PerfSlot) : List PerfSlot := st

/-- `PerfStatCounters::reenable`: issues `PERF_EVENT_IOC_ENABLE` on
every open descriptor; the object's stored vectors are unchanged. -/
def reenable (st : List PerfSlot) : List PerfSlot := st

/-- `PerfStatCounters::disable`: for every slot with an open descriptor
(`fd >= 0`), disables and closes it, sets `fd = -1` and zeroes the
current and previous values.  Slots with `fd < 0` are untouched. -/
def disable (st : List PerfSlot) : List PerfSlot :=
  st.map (fun s => if 0 ≤ s.fd then ⟨-1, 0, 0⟩ else s)

/-- The loop body of `PerfStatCounters::updateCounters` after
`prevValues = values`: each slot's previous value becomes its old
current value; a slot with `fd < 0` is skipped with current value `0`;
otherwise the kernel read oracle supplies the new 64-bit value, and a
short or failed read (`none`) is fatal. -/
def updateSlots (reads : Nat → Option Nat) : Nat → List PerfSlot → Option (List PerfSlot)
  | _, [] => some []
  | i, s :: rest =>
    if s.fd < 0 then
      (updateSlots reads (i+1) rest).map (fun l => (⟨s.fd, 0, s.value⟩ : PerfSlot) :: l)
    else
      match reads i with
      | none => none
      | some v => (updateSlots reads (i+1) rest).map (fun l => (⟨s.fd, v, s.value⟩ : PerfSlot) :: l)

/-- `PerfStatCounters::updateCounters`: snapshot current values into
previous values, then read every non-unsupported descriptor. -/
def updateCounters (st : List PerfSlot) (reads : Nat → Option Nat) : Option (List PerfSlot) :=
  updateSlots reads 0 st

/-- `PerfStatCounters::getValues`: the current raw values as a numeric
vector (each `uint64_t` converted to `double`). -/
def getValues (st : List PerfSlot) : List ℚ := st.map (fun s => (s.value : ℚ))

/-- The previous raw values as a numeric vector. -/
def prevVec (st : List PerfSlot) : List ℚ := st.map (fun s => (s.prevValue : ℚ))

/-- `PerfStatCounters::getDeltaValues`: builds vectors from `values` and
`prevValues` and returns their elementwise difference. -/
def getDeltaValues (st : List PerfSlot) : List ℚ := vecSub (getValues st) (prevVec st)

/-- `PerfStatCounters::getValue(ctrNum)`: one current raw value as a
`double`. -/
def getValue (st : List PerfSlot) (ctrNum : Nat) : ℚ :=
  (((st.getD ctrNum ⟨-1, 0, 0⟩).value : Nat) : ℚ)

/-- One public operation on a counter group during its lifetime. -/
inductive PerfOp where
  | enable
  | reenable
  | disable
  | update (reads : Nat → Option Nat)
  | create (typeIds ctrNames : List Nat) (os : Nat → PerfOpenResult)

/-- Apply one operation; `none` is a fatal exit. -/
def applyOp (st : List PerfSlot) : PerfOp → Option (List PerfSlot)
  | .enable => some (enable st)
  | .reenable => some (reenable st)
  | .disable => some (disable st)
  | .update reads => updateCounters st reads
  | .create t c os => (createCounterFds st t c os).1

/-- Run a sequence of operations on a counter group. -/
def runOps (st : List PerfSlot) (ops : List PerfOp) : Option (List PerfSlot) :=
  ops.foldl (fun acc op => acc.bind (fun s => applyOp s op)) (some st)

/-- Every slot with a negative descriptor (closed or unsupported) holds
zero current and previous values. -/
def InvZero (st : List PerfSlot) : Prop :=
  ∀ s ∈ st, s.fd < 0 → s.value = 0 ∧ s.prevValue = 0

/-- Constraint on one lifetime operation used to state permanence of the
unsupported mark at slot `i`: any re-creation must again report the
event unsupported (the OS answers consistently for a fixed
(type, event, core) triple). -/
def opKeepsUnsupported (i : Nat) : PerfOp → Prop
  | .create _ _ os => os i = PerfOpenResult.enoent
  | _ => True

/-- Slot `i` is marked permanently unsupported (`fd = -2`) with zeroed
current and previous values. -/
def UnsupportedAt (i : Nat) (st : List PerfSlot) : Prop :=
  st.get? i = some ⟨-2, 0, 0⟩

end PerfStatCounters

open PerfStatCounters

/-- The `makeVector` helper at the top of `Sensors.cpp`: a vector of `n`
zeros. -/
def makeVector (n : Nat) : List ℚ := List.replicate n (0 : ℚ)

/-- Perf event type ids from `linux/perf_event.h`. -/
def perfTypeHardware : Nat := 0

/-- `PERF_TYPE_SOFTWARE`. -/
def perfTypeSoftware : Nat := 1

/-- `PERF_COUNT_HW_INSTRUCTIONS`. -/
def hwInstructions : Nat := 1

/-- `PERF_COUNT_HW_CACHE_REFERENCES`. -/
def hwCacheReferences : Nat := 2

/-- `PERF_COUNT_HW_CACHE_MISSES`. -/
def hwCacheMisses : Nat := 3

/-- `PERF_COUNT_HW_BRANCH_INSTRUCTIONS`. -/
def hwBranchInstructions : Nat := 4

/-- `PERF_COUNT_HW_BRANCH_MISSES`. -/
def hwBranchMisses : Nat := 5

/-- `PERF_COUNT_HW_BUS_CYCLES`. -/
def hwBusCycles : Nat := 6

/-- `PERF_COUNT_HW_REF_CPU_CYCLES`. -/
def hwRefCpuCycles : Nat := 9

/-- `PERF_COUNT_SW_CPU_CLOCK`. -/
def swCpuClock : Nat := 0

/-- `PERF_COUNT_SW_TASK_CLOCK`. -/
def swTaskClock : Nat := 1

/-- `PERF_COUNT_SW_PAGE_FAULTS`. -/
def swPageFaults : Nat := 2

/-- `PERF_COUNT_SW_CONTEXT_SWITCHES`. -/
def swContextSwitches : Nat := 3

/-- `PERF_COUNT_SW_CPU_MIGRATIONS`. -/
def swCpuMigrations : Nat := 4

/-- `PERF_COUNT_SW_ALIGNMENT_FAULTS`. -/
def swAlignmentFaults : Nat := 7

/-- `PERF_COUNT_SW_EMULATION_FAULTS`. -/
def swEmulationFaults : Nat := 8

/-- State of the `Time` sensor: the base-class value vectors (width 1).
`rawTime` is re-read on every acquisition, so it is passed as an oracle
input rather than stored. -/
structure TimeSensorState where
  values : List ℚ
  prevValues : List ℚ
deriving Repr, DecidableEq

/-- `Time::readFromSystem`: `clock_gettime(CLOCK_REALTIME)` yields
`(sec, nsec)`; `values[0] = sec + nsec * 1e-9`. -/
def timeReadFromSystem (st : TimeSensorState) (sec nsec : ℤ) : TimeSensorState :=
  { st with values := st.values.set 0 ((sec : ℚ) + (nsec : ℚ) * (1 / 1000000000)) }

/-- The `Time` constructor: base `Sensor` state of width 1 (all zeros),
followed by one `readFromSystem`. -/
def mkTimeSensor (sec nsec : ℤ) : TimeSensorState :=
  timeReadFromSystem { values := makeVector 1, prevValues := makeVector 1 } sec nsec

/-- `Sensor::updateValuesFromSystem` for `Time`: rotate
`prevValues ← values`, then `readFromSystem`. -/
def timeUpdate (st : TimeSensorState) (inp : ℤ × ℤ) : TimeSensorState :=
  timeReadFromSystem { st with prevValues := st.values } inp.1 inp.2

/-- A whole lifetime of acquisitions of a `Time` sensor. -/
def runTimeSensor (st : TimeSensorState) (ins : List (ℤ × ℤ)) : TimeSensorState :=
  ins.foldl timeUpdate st

/-- Shared state shape of `CPUPowerSensor` and `DRAMPowerSensor`: the
base-class value vectors (width 1), the saved cumulative energy counter
(a `double` in the source) and the previous sample time.  Timestamps are
`steady_clock` microseconds, the unit the source truncates to before the
division. -/
structure PowerSensorState where
  values : List ℚ
  prevValues : List ℚ
  energyCtr : ℚ
  prevSampleTime : ℤ
deriving Repr, DecidableEq

/-- `CPUPowerSensor::readFromSystem`: sum the cumulative microjoule
readings of all configured energy files, subtract the stored counter,
divide by the elapsed microseconds if positive (else publish 0), and
store the new counter value and sample time. -/
def cpuPowerReadFromSystem (st : PowerSensorState) (readings : List ℚ) (now : ℤ) :
    PowerSensorState :=
  let ctrValue : ℚ := readings.foldl (fun a tmp => a + tmp) 0
  let newEnergy : ℚ := ctrValue - st.energyCtr
  let deltaTime : ℤ := now - st.prevSampleTime
  { st with
    energyCtr := ctrValue
    prevSampleTime := now
    values := st.values.set 0 (if 0 < deltaTime then newEnergy / (deltaTime : ℚ) else 0) }

/-- `DRAMPowerSensor::readFromSystem`: like the CPU power sensor but
with a single energy file. -/
def dramPowerReadFromSystem (st : PowerSensorState) (ctrValue : ℚ) (now : ℤ) :
    PowerSensorState :=
  let newEnergy : ℚ := ctrValue - st.energyCtr
  let deltaTime : ℤ := now - st.prevSampleTime
  { st with
    energyCtr := ctrValue
    prevSampleTime := now
    values := st.values.set 0 (if 0 < deltaTime then newEnergy / (deltaTime : ℚ) else 0) }

/-- Constructor state shared by both power sensors: `values` reset to a
width-1 zero vector, `energyCtr = 0`, both sample times set to the
construction time. -/
def mkPowerSensor (t0 : ℤ) : PowerSensorState :=
  { values := makeVector 1, prevValues := makeVector 1, energyCtr := 0, prevSampleTime := t0 }

/-- `Sensor::updateValuesFromSystem` for `CPUPowerSensor`. -/
def cpuPowerUpdate (st : PowerSensorState) (inp : List ℚ × ℤ) : PowerSensorState :=
  cpuPowerReadFromSystem { st with prevValues := st.values } inp.1 inp.2

/-- `Sensor::updateValuesFromSystem` for `DRAMPowerSensor`. -/
def dramPowerUpdate (st : PowerSensorState) (inp : ℚ × ℤ) : PowerSensorState :=
  dramPowerReadFromSystem { st with prevValues := st.values } inp.1 inp.2

/-- A whole lifetime of acquisitions of a `CPUPowerSensor`. -/
def runCPUPowerSensor (st : PowerSensorState) (ins : List (List ℚ × ℤ)) : PowerSensorState :=
  ins.foldl cpuPowerUpdate st

/-- A whole lifetime of acquisitions of a `DRAMPowerSensor`. -/
def runDRAMPowerSensor (st : PowerSensorState) (ins : List (ℚ × ℤ)) : PowerSensorState :=
  ins.foldl dramPowerUpdate st

/-- State of `CPUTempSensor`: the base-class value vectors (width 1).
The constructor's directory scan (fatal when no candidate directory
opens) only fixes which files are re-read each cycle; the per-cycle
millidegree readings are the oracle input. -/
structure TempSensorState where
  values : List ℚ
  prevValues : List ℚ
deriving Repr, DecidableEq

/-- `CPUTempSensor::readFromSystem`: reset `values` to a width-1 zero
vector, fold the maximum of the millidegree readings into `values[0]`,
then divide by 1000. -/
def cpuTempReadFromSystem (st : TempSensorState) (readings : List ℚ) : TempSensorState :=
  let m : ℚ := readings.foldl (fun acc newValue => if acc < newValue then newValue else acc) 0
  { st with values := (makeVector 1).set 0 (m / 1000) }

/-- The `CPUTempSensor` constructor (after a successful directory
scan): base `Sensor` state of width 1. -/
def mkCPUTempSensor : TempSensorState :=
  { values := makeVector 1, prevValues := makeVector 1 }

/-- `Sensor::updateValuesFromSystem` for `CPUTempSensor`. -/
def cpuTempUpdate (st : TempSensorState) (readings : List ℚ) : TempSensorState :=
  cpuTempReadFromSystem { st with prevValues := st.values } readings

/-- A whole lifetime of acquisitions of a `CPUTempSensor`. -/
def runCPUTempSensor (st : TempSensorState) (ins : List (List ℚ)) : TempSensorState :=
  ins.foldl cpuTempUpdate st

/-- The event lists of `CorePerfSensor`'s instruction counter group. -/
def corePerfInstTypes : List Nat := [perfTypeHardware]

/-- `{PERF_COUNT_HW_INSTRUCTIONS}`. -/
def corePerfInstEvents : List Nat := [hwInstructions]

/-- The type list of `CorePerfSensor`'s cache counter group. -/
def corePerfCacheTypes : List Nat := [perfTypeHardware, perfTypeHardware]

/-- `{PERF_COUNT_HW_CACHE_REFERENCES, PERF_COUNT_HW_CACHE_MISSES}`. -/
def corePerfCacheEvents : List Nat := [hwCacheReferences, hwCacheMisses]

/-- State of `CorePerfSensor`: base-class value vectors (width 2:
BIPS, MPKI), the two counter groups, the shutdown flag and the previous
sample time (`steady_clock` nanoseconds, the unit used by
`readFromSystem`).  `coreBips`/`coreMpki` are overwritten at the start
of every read before being used, so they are modelled as locals of the
read. -/
structure CorePerfState where
  values : List ℚ
  prevValues : List ℚ
  instCtr : List PerfSlot
  cacheCtr : List PerfSlot
  shutDown : Bool
  prevSampleTime : ℤ

/-- `CorePerfSensor::handleShutDown`: disable both groups and mark the
sensor shut down. -/
def corePerfHandleShutDown (st : CorePerfState) : CorePerfState :=
  { st with
    instCtr := PerfStatCounters.disable st.instCtr
    cacheCtr := PerfStatCounters.disable st.cacheCtr
    shutDown := true }

/-- `CorePerfSensor::handleReactivation`: re-create both groups with
fresh descriptors (fatal on a non-ENOENT failure), reset both sample
times to a fresh clock reading, re-enable without reset, clear the
shutdown flag. -/
def corePerfHandleReactivation (st : CorePerfState) (nowReact : ℤ)
    (instOs cacheOs : Nat → PerfOpenResult) : Option CorePerfState :=
  match (createCounterFds st.instCtr corePerfInstTypes corePerfInstEvents instOs).1 with
  | none => none
  | some inst =>
    match (createCounterFds st.cacheCtr corePerfCacheTypes corePerfCacheEvents cacheOs).1 with
    | none => none
    | some cache =>
      some { st with
        instCtr := reenable inst
        cacheCtr := reenable cache
        shutDown := false
        prevSampleTime := nowReact }

/-- `CorePerfSensor::readFromSystem`: measure elapsed nanoseconds and
advance the sample time; if the core just went inactive, shut the
counters down; if it is active again after a shutdown, reactivate; else
update both groups and derive BIPS and MPKI from the deltas.  `active`
is `coreStatus.getUnitStatus(coreId)`; `now` is the cycle's clock
reading and `nowReact` the extra clock reading taken inside
`handleReactivation`. -/
def corePerfReadFromSystem (st : CorePerfState) (active : Bool) (now nowReact : ℤ)
    (instOs cacheOs : Nat → PerfOpenResult)
    (instReads cacheReads : Nat → Option Nat) : Option CorePerfState :=
  let deltaTime : ℚ := ((now - st.prevSampleTime : ℤ) : ℚ)
  let st1 := { st with prevSampleTime := now }
  if active = false ∧ st1.shutDown = false then
    some { corePerfHandleShutDown st1 with values := [(0 : ℚ), 0] }
  else if active = true ∧ st1.shutDown = true then
    (corePerfHandleReactivation st1 nowReact instOs cacheOs).map
      (fun st2 => { st2 with values := [(0 : ℚ), 0] })
  else
    match updateCounters st1.instCtr instReads with
    | none => none
    | some inst =>
      match updateCounters st1.cacheCtr cacheReads with
      | none => none
      | some cache =>
        let perCoreNewInstVals := getDeltaValues inst
        let perCoreNewCacheCtrVals := getDeltaValues cache
        let coreBips : ℚ :=
          if 0 < deltaTime then perCoreNewInstVals.getD 0 0 / deltaTime else 0
        let coreMpki : ℚ :=
          if 0 < perCoreNewInstVals.getD 0 0 then
            perCoreNewCacheCtrVals.getD 1 0 * 1000 / perCoreNewInstVals.getD 0 0
          else 0
        some { st1 with instCtr := inst, cacheCtr := cache, values := [coreBips, coreMpki] }

/-- The `CorePerfSensor` constructor: build both groups (fatal on a
non-ENOENT failure), clear the shutdown flag, enable (reset + enable)
both groups, then take a first reading. -/
def mkCorePerfSensor (t0 : ℤ) (instOs cacheOs : Nat → PerfOpenResult)
    (active : Bool) (now nowReact : ℤ)
    (instReads cacheReads : Nat → Option Nat) : Option CorePerfState :=
  match (mkPerfStatCounters corePerfInstTypes corePerfInstEvents instOs).1 with
  | none => none
  | some inst =>
    match (mkPerfStatCounters corePerfCacheTypes corePerfCacheEvents cacheOs).1 with
    | none => none
    | some cache =>
      corePerfReadFromSystem
        { values := makeVector 2, prevValues := makeVector 2,
          instCtr := PerfStatCounters.enable inst, cacheCtr := PerfStatCounters.enable cache,
          shutDown := false, prevSampleTime := t0 }
        active now nowReact instOs cacheOs instReads cacheReads

/-- All oracle inputs of one `CorePerfSensor` acquisition cycle. -/
structure CoreCycleInput where
  active : Bool
  now : ℤ
  nowReact : ℤ
  instOs : Nat → PerfOpenResult
  cacheOs : Nat → PerfOpenResult
  instReads : Nat → Option Nat
  cacheReads : Nat → Option Nat

/-- `Sensor::updateValuesFromSystem` for `CorePerfSensor`. -/
def corePerfUpdate (st : CorePerfState) (inp : CoreCycleInput) : Option CorePerfState :=
  corePerfReadFromSystem { st with prevValues := st.values }
    inp.active inp.now inp.nowReact inp.instOs inp.cacheOs inp.instReads inp.cacheReads

/-- A whole lifetime of acquisitions of a `CorePerfSensor`. -/
def runCorePerfSensor (st : CorePerfState) (ins : List CoreCycleInput) : Option CorePerfState :=
  ins.foldl (fun acc inp => acc.bind (fun s => corePerfUpdate s inp)) (some st)

/-- Hardware group 0 of `CPUPerfSensor` (4 events). -/
def hwGroup0Types : List Nat := [perfTypeHardware, perfTypeHardware, perfTypeHardware, perfTypeHardware]

/-- `{REF_CPU_CYCLES, INSTRUCTIONS, BRANCH_INSTRUCTIONS, BRANCH_MISSES}`. -/
def hwGroup0Events : List Nat := [hwRefCpuCycles, hwInstructions, hwBranchInstructions, hwBranchMisses]

/-- Hardware group 1 of `CPUPerfSensor` (3 events). -/
def hwGroup1Types : List Nat := [perfTypeHardware, perfTypeHardware, perfTypeHardware]

/-- `{CACHE_REFERENCES, CACHE_MISSES, BUS_CYCLES}`. -/
def hwGroup1Events : List Nat := [hwCacheReferences, hwCacheMisses, hwBusCycles]

/-- Software group 2 of `CPUPerfSensor` (4 events). -/
def swGroup2Types : List Nat := [perfTypeSoftware, perfTypeSoftware, perfTypeSoftware, perfTypeSoftware]

/-- `{CPU_CLOCK, TASK_CLOCK, PAGE_FAULTS, CPU_MIGRATIONS}`. -/
def swGroup2Events : List Nat := [swCpuClock, swTaskClock, swPageFaults, swCpuMigrations]

/-- Software group 3 of `CPUPerfSensor` (3 events). -/
def swGroup3Types : List Nat := [perfTypeSoftware, perfTypeSoftware, perfTypeSoftware]

/-- `{CONTEXT_SWITCHES, ALIGNMENT_FAULTS, EMULATION_FAULTS}`. -/
def swGroup3Events : List Nat := [swContextSwitches, swAlignmentFaults, swEmulationFaults]

/-- State of `CPUPerfSensor`: base-class value vectors (width 16), the
constructed core id list, the per-core shutdown flags and the per-core
four counter groups (both stored by position in `coreIds`), and the
previous sample time in nanoseconds. -/
structure CPUPerfState where
  values : List ℚ
  prevValues : List ℚ
  coreIds : List Nat
  shutDown : List Bool
  groupCounters : List (List (List PerfSlot))
  prevSampleTime : ℤ

/-- The four running aggregate vectors of one
`CPUPerfSensor::readFromSystem` cycle. -/
structure CPUPerfAggs where
  agg0 : List ℚ
  agg1 : List ℚ
  agg2 : List ℚ
  agg3 : List ℚ

/-- `CPUPerfSensor::handleShutDown(coreId)`: `size_t idx = coreId` — the
per-core arrays are indexed by the core id, not by its position in
`coreIds`.  Disables all four groups of that row and sets the shutdown
flag. -/
def cpuPerfHandleShutDown (gcs : List (List (List PerfSlot))) (sd : List Bool) (coreId : Nat) :
    List (List (List PerfSlot)) × List Bool :=
  (gcs.set coreId ((gcs.getD coreId []).map PerfStatCounters.disable), sd.set coreId true)

/-- `CPUPerfSensor::handleReactivation(coreId)`: also indexes the
per-core arrays by the core id.  Re-creates all four groups with fresh
descriptors (fatal on a non-ENOENT failure), re-enables them without
reset and clears the shutdown flag.  `os g` is the `perf_event_open`
oracle for group `g` of this core. -/
def cpuPerfHandleReactivation (gcs : List (List (List PerfSlot))) (sd : List Bool) (coreId : Nat)
    (os : Nat → Nat → PerfOpenResult) :
    Option (List (List (List PerfSlot)) × List Bool) :=
  let row := gcs.getD coreId []
  match (createCounterFds (row.getD 0 []) hwGroup0Types hwGroup0Events (os 0)).1 with
  | none => none
  | some g0 =>
  match (createCounterFds (row.getD 1 []) hwGroup1Types hwGroup1Events (os 1)).1 with
  | none => none
  | some g1 =>
  match (createCounterFds (row.getD 2 []) swGroup2Types swGroup2Events (os 2)).1 with
  | none => none
  | some g2 =>
  match (createCounterFds (row.getD 3 []) swGroup3Types swGroup3Events (os 3)).1 with
  | none => none
  | some g3 =>
  some (gcs.set coreId
      ((((row.set 0 (reenable g0)).set 1 (reenable g1)).set 2 (reenable g2)).set 3 (reenable g3)),
    sd.set coreId false)

/-- The per-core loop of `CPUPerfSensor::readFromSystem`: position `i`
runs over `coreIds`; the status check, the shutdown-flag check and the
counter updates use position `i`, while `handleShutDown` and
`handleReactivation` index by the core id.  An inactive core is skipped
(shutting its counters down once); an active core that was shut down is
reactivated first; then all four groups are updated and their deltas
accumulated.  `reads i j k` is the kernel read for position `i`, group
`j`, slot `k`; `os c j k` is the `perf_event_open` oracle for core id
`c`, group `j`, slot `k`. -/
def cpuPerfLoop (status : Nat → Bool) (reads : Nat → Nat → Nat → Option Nat)
    (os : Nat → Nat → Nat → PerfOpenResult) :
    Nat → List Nat → List (List (List PerfSlot)) → List Bool → CPUPerfAggs →
    Option (List (List (List PerfSlot)) × List Bool × CPUPerfAggs)
  | _, [], gcs, sd, aggs => some (gcs, sd, aggs)
  | i, coreId :: rest, gcs, sd, aggs =>
    if status coreId = false then
      if sd.getD i false = false then
        let r := cpuPerfHandleShutDown gcs sd coreId
        cpuPerfLoop status reads os (i+1) rest r.1 r.2 aggs
      else
        cpuPerfLoop status reads os (i+1) rest gcs sd aggs
    else
      match (if sd.getD i false = true then cpuPerfHandleReactivation gcs sd coreId (os coreId)
             else some (gcs, sd)) with
      | none => none
      | some r1 =>
      let row := r1.1.getD i []
      match updateCounters (row.getD 0 []) (reads i 0) with
      | none => none
      | some g0 =>
      match updateCounters (row.getD 1 []) (reads i 1) with
      | none => none
      | some g1 =>
      match updateCounters (row.getD 2 []) (reads i 2) with
      | none => none
      | some g2 =>
      match updateCounters (row.getD 3 []) (reads i 3) with
      | none => none
      | some g3 =>
      let gcs2 := r1.1.set i ((((row.set 0 g0).set 1 g1).set 2 g2).set 3 g3)
      let aggs2 : CPUPerfAggs :=
        ⟨vecAdd aggs.agg0 (getDeltaValues g0), vecAdd aggs.agg1 (getDeltaValues g1),
         vecAdd aggs.agg2 (getDeltaValues g2), vecAdd aggs.agg3 (getDeltaValues g3)⟩
      cpuPerfLoop status reads os (i+1) rest gcs2 r1.2 aggs2

/-- The 16 output assignments at the end of
`CPUPerfSensor::readFromSystem`, written into the persistent width-16
`values` vector. -/
def cpuPerfOutputs (deltaTime : ℚ) (aggs : CPUPerfAggs) (values : List ℚ) : List ℚ :=
  let v := values.set 0 (aggs.agg0.getD 0 0)
  let v := v.set 1 (if 0 < deltaTime then aggs.agg0.getD 1 0 / deltaTime else 0)
  let v := v.set 2 (aggs.agg0.getD 3 0)
  let v := v.set 3 (if 0 < aggs.agg0.getD 2 0 then aggs.agg0.getD 3 0 / aggs.agg0.getD 2 0 else 0)
  let v := v.set 4 (aggs.agg1.getD 0 0)
  let v := v.set 5 (aggs.agg1.getD 1 0)
  let v := v.set 6 (if 0 < aggs.agg1.getD 0 0 then aggs.agg1.getD 1 0 / aggs.agg1.getD 0 0 else 0)
  let v := v.set 7 (aggs.agg1.getD 2 0)
  let v := v.set 8 (if 0 < aggs.agg0.getD 1 0 then aggs.agg1.getD 2 0 / aggs.agg0.getD 1 0 else 0)
  let v := v.set 9 (aggs.agg2.getD 0 0)
  let v := v.set 10 (aggs.agg2.getD 1 0)
  let v := v.set 11 (aggs.agg2.getD 2 0)
  let v := v.set 12 (aggs.agg2.getD 3 0)
  let v := v.set 13 (aggs.agg3.getD 0 0)
  let v := v.set 14 (aggs.agg3.getD 1 0)
  let v := v.set 15 (aggs.agg3.getD 2 0)
  v

/-- `CPUPerfSensor::readFromSystem`: measure elapsed nanoseconds,
advance the sample time, run the per-core loop with freshly zeroed
aggregate vectors (sizes 4, 3, 4, 3), then compute the 16 outputs. -/
def cpuPerfReadFromSystem (st : CPUPerfState) (now : ℤ) (status : Nat → Bool)
    (reads : Nat → Nat → Nat → Option Nat) (os : Nat → Nat → Nat → PerfOpenResult) :
    Option CPUPerfState :=
  let deltaTime : ℚ := ((now - st.prevSampleTime : ℤ) : ℚ)
  (cpuPerfLoop status reads os 0 st.coreIds st.groupCounters st.shutDown
      ⟨makeVector 4, makeVector 3, makeVector 4, makeVector 3⟩).map
    (fun r =>
      { st with
        prevSampleTime := now
        groupCounters := r.1
        shutDown := r.2.1
        values := cpuPerfOutputs deltaTime r.2.2 st.values })

/-- The constructor body for one core of `CPUPerfSensor`: groups 0-3,
each created (fatal on a non-ENOENT failure) and then enabled. -/
def mkCPUPerfCoreGroups (os : Nat → Nat → PerfOpenResult) : Option (List (List PerfSlot)) :=
  match (mkPerfStatCounters hwGroup0Types hwGroup0Events (os 0)).1 with
  | none => none
  | some g0 =>
  match (mkPerfStatCounters hwGroup1Types hwGroup1Events (os 1)).1 with
  | none => none
  | some g1 =>
  match (mkPerfStatCounters swGroup2Types swGroup2Events (os 2)).1 with
  | none => none
  | some g2 =>
  match (mkPerfStatCounters swGroup3Types swGroup3Events (os 3)).1 with
  | none => none
  | some g3 =>
  some [PerfStatCounters.enable g0, PerfStatCounters.enable g1,
        PerfStatCounters.enable g2, PerfStatCounters.enable g3]

/-- The per-core construction loop of the `CPUPerfSensor` constructor:
the four groups of each core id in order, fatal (`none`) as soon as one
creation is fatal. -/
def mkCPUPerfGroupsList (os : Nat → Nat → Nat → PerfOpenResult) :
    List Nat → Option (List (List (List PerfSlot)))
  | [] => some []
  | coreId :: rest =>
    match mkCPUPerfCoreGroups (os coreId) with
    | none => none
    | some g =>
      match mkCPUPerfGroupsList os rest with
      | none => none
      | some gs => some (g :: gs)

/-- The `CPUPerfSensor` constructor: width-16 value vectors, per-core
shutdown flags all false, and four groups per core (created for the core
id at each position of `coreIds`). -/
def mkCPUPerfSensor (coreIds : List Nat) (os : Nat → Nat → Nat → PerfOpenResult) (t0 : ℤ) :
    Option CPUPerfState :=
  match mkCPUPerfGroupsList os coreIds with
  | none => none
  | some gcs =>
    some { values := makeVector 16, prevValues := makeVector 16, coreIds := coreIds,
           shutDown := List.replicate coreIds.length false, groupCounters := gcs,
           prevSampleTime := t0 }

/-- All oracle inputs of one `CPUPerfSensor` acquisition cycle. -/
structure CPUPerfCycleInput where
  now : ℤ
  status : Nat → Bool
  reads : Nat → Nat → Nat → Option Nat
  os : Nat → Nat → Nat → PerfOpenResult

/-- `Sensor::updateValuesFromSystem` for `CPUPerfSensor`. -/
def cpuPerfUpdate (st : CPUPerfState) (inp : CPUPerfCycleInput) : Option CPUPerfState :=
  cpuPerfReadFromSystem { st with prevValues := st.values } inp.now inp.status inp.reads inp.os

/-- A whole lifetime of acquisitions of a `CPUPerfSensor`. -/
def runCPUPerfSensor (st : CPUPerfState) (ins : List CPUPerfCycleInput) : Option CPUPerfState :=
  ins.foldl (fun acc inp => acc.bind (fun s => cpuPerfUpdate s inp)) (some st)

/-- Modelled from the spec (the intended per-unit semantics, used as the
refinement target): identical to `cpuPerfLoop` except that
`handleShutDown` and `handleReactivation` index the per-core arrays by
the loop position `i` instead of by the core id (the OS creation oracle
still targets the core id, as the source passes `coreId` to
`perf_event_open`). -/
def cpuPerfLoopPos (status : Nat → Bool) (reads : Nat → Nat → Nat → Option Nat)
    (os : Nat → Nat → Nat → PerfOpenResult) :
    Nat → List Nat → List (List (List PerfSlot)) → List Bool → CPUPerfAggs →
    Option (List (List (List PerfSlot)) × List Bool × CPUPerfAggs)
  | _, [], gcs, sd, aggs => some (gcs, sd, aggs)
  | i, coreId :: rest, gcs, sd, aggs =>
    if status coreId = false then
      if sd.getD i false = false then
        let r := cpuPerfHandleShutDown gcs sd i
        cpuPerfLoopPos status reads os (i+1) rest r.1 r.2 aggs
      else
        cpuPerfLoopPos status reads os (i+1) rest gcs sd aggs
    else
      match (if sd.getD i false = true then cpuPerfHandleReactivation gcs sd i (os coreId)
             else some (gcs, sd)) with
      | none => none
      | some r1 =>
      let row := r1.1.getD i []
      match updateCounters (row.getD 0 []) (reads i 0) with
      | none => none
      | some g0 =>
      match updateCounters (row.getD 1 []) (reads i 1) with
      | none => none
      | some g1 =>
      match updateCounters (row.getD 2 []) (reads i 2) with
      | none => none
      | some g2 =>
      match updateCounters (row.getD 3 []) (reads i 3) with
      | none => none
      | some g3 =>
      let gcs2 := r1.1.set i ((((row.set 0 g0).set 1 g1).set 2 g2).set 3 g3)
      let aggs2 : CPUPerfAggs :=
        ⟨vecAdd aggs.agg0 (getDeltaValues g0), vecAdd aggs.agg1 (getDeltaValues g1),
         vecAdd aggs.agg2 (getDeltaValues g2), vecAdd aggs.agg3 (getDeltaValues g3)⟩
      cpuPerfLoopPos status reads os (i+1) rest gcs2 r1.2 aggs2

/-- Modelled from the spec for comparison: `cpuPerfReadFromSystem` built
on the position-indexed loop. -/
def cpuPerfReadFromSystemPos (st : CPUPerfState) (now : ℤ) (status : Nat → Bool)
    (reads : Nat → Nat → Nat → Option Nat) (os : Nat → Nat → Nat → PerfOpenResult) :
    Option CPUPerfState :=
  let deltaTime : ℚ := ((now - st.prevSampleTime : ℤ) : ℚ)
  (cpuPerfLoopPos status reads os 0 st.coreIds st.groupCounters st.shutDown
      ⟨makeVector 4, makeVector 3, makeVector 4, makeVector 3⟩).map
    (fun r =>
      { st with
        prevSampleTime := now
        groupCounters := r.1
        shutDown := r.2.1
        values := cpuPerfOutputs deltaTime r.2.2 st.values })


section PerfLemmas

open PerfStatCounters

theorem createSlots_length (os : Nat → PerfOpenResult) :
    ∀ (i : Nat) (st out : List PerfSlot), (createSlots os i st).1 = some out →
      out.length = st.length := by
  intro i st
  induction st generalizing i with
  | nil => intro out h; simp [createSlots] at h; simp [← h]
  | cons s rest ih =>
    intro out h
    unfold createSlots at h
    cases hos : os i with
    | otherError => rw [hos] at h; simp at h
    | enoent =>
      rw [hos] at h; simp only at h
      cases hr : (createSlots os (i+1) rest).1 with
      | none => rw [hr] at h; simp at h
      | some l =>
        rw [hr] at h; simp at h
        have := ih (i+1) l hr
        simp [← h, List.length_cons, this]
    | ok fd =>
      rw [hos] at h; simp only at h
      cases hr : (createSlots os (i+1) rest).1 with
      | none => rw [hr] at h; simp at h
      | some l =>
        rw [hr] at h; simp at h
        have := ih (i+1) l hr
        simp [← h, List.length_cons, this]

theorem updateSlots_length (reads : Nat → Option Nat) :
    ∀ (i : Nat) (st out : List PerfSlot), updateSlots reads i st = some out →
      out.length = st.length := by
  intro i st
  induction st generalizing i with
  | nil => intro out h; simp [updateSlots] at h; simp [← h]
  | cons s rest ih =>
    intro out h
    unfold updateSlots at h
    by_cases hfd : s.fd < 0
    · rw [if_pos hfd] at h
      cases hr : updateSlots reads (i+1) rest with
      | none => rw [hr] at h; simp at h
      | some l =>
        rw [hr] at h; simp at h
        have := ih (i+1) l hr
        simp [← h, this]
    · rw [if_neg hfd] at h
      cases hread : reads i with
      | none => rw [hread] at h; simp at h
      | some v =>
        rw [hread] at h
        cases hr : updateSlots reads (i+1) rest with
        | none => rw [hr] at h; simp at h
        | some l =>
          rw [hr] at h; simp at h
          have := ih (i+1) l hr
          simp [← h, this]

end PerfLemmas

section PerfPointwise

open PerfStatCounters

theorem createSlots_get? (os : Nat → PerfOpenResult) :
    ∀ (i : Nat) (st out : List PerfSlot), (createSlots os i st).1 = some out →
      ∀ (m : Nat), out.get? m = (st.get? m).map (fun s =>
        match os (i + m) with
        | .ok fd => (⟨(fd : Int), s.value, s.prevValue⟩ : PerfSlot)
        | .enoent => (⟨-2, 0, 0⟩ : PerfSlot)
        | .otherError => s) := by
  intro i st
  induction st generalizing i with
  | nil =>
    intro out h m
    simp [createSlots] at h
    simp [h]
  | cons s rest ih =>
    intro out h m
    unfold createSlots at h
    cases hos : os i with
    | otherError => rw [hos] at h; simp at h
    | enoent =>
      rw [hos] at h; simp only at h
      cases hr : (createSlots os (i+1) rest).1 with
      | none => rw [hr] at h; simp at h
      | some l =>
        rw [hr] at h; simp at h
        cases m with
        | zero =>
          rw [← h]
          simp [List.get?_cons_zero, hos]
        | succ m' =>
          have hrec := ih (i+1) l hr m'
          have harith : i + 1 + m' = i + (m' + 1) := by omega
          rw [harith] at hrec
          rw [← h]
          exact hrec
    | ok fd =>
      rw [hos] at h; simp only at h
      cases hr : (createSlots os (i+1) rest).1 with
      | none => rw [hr] at h; simp at h
      | some l =>
        rw [hr] at h; simp at h
        cases m with
        | zero =>
          rw [← h]
          simp [List.get?_cons_zero, hos]
        | succ m' =>
          have hrec := ih (i+1) l hr m'
          have harith : i + 1 + m' = i + (m' + 1) := by omega
          rw [harith] at hrec
          rw [← h]
          exact hrec

theorem updateSlots_get? (reads : Nat → Option Nat) :
    ∀ (i : Nat) (st out : List PerfSlot), updateSlots reads i st = some out →
      ∀ (m : Nat), out.get? m = (st.get? m).map (fun s =>
        if s.fd < 0 then (⟨s.fd, 0, s.value⟩ : PerfSlot)
        else (⟨s.fd, (reads (i + m)).getD 0, s.value⟩ : PerfSlot)) := by
  intro i st
  induction st generalizing i with
  | nil =>
    intro out h m
    simp [updateSlots] at h
    simp [h]
  | cons s rest ih =>
    intro out h m
    unfold updateSlots at h
    by_cases hfd : s.fd < 0
    · rw [if_pos hfd] at h
      cases hr : updateSlots reads (i+1) rest with
      | none => rw [hr] at h; simp at h
      | some l =>
        rw [hr] at h; simp at h
        cases m with
        | zero =>
          rw [← h]
          simp [List.get?_cons_zero, hfd]
        | succ m' =>
          have hrec := ih (i+1) l hr m'
          have harith : i + 1 + m' = i + (m' + 1) := by omega
          rw [harith] at hrec
          rw [← h]
          exact hrec
    · rw [if_neg hfd] at h
      cases hread : reads i with
      | none => rw [hread] at h; simp at h
      | some v =>
        rw [hread] at h
        cases hr : updateSlots reads (i+1) rest with
        | none => rw [hr] at h; simp at h
        | some l =>
          rw [hr] at h; simp at h
          cases m with
          | zero =>
            rw [← h]
            simp [List.get?_cons_zero, hfd, hread]
          | succ m' =>
            have hrec := ih (i+1) l hr m'
            have harith : i + 1 + m' = i + (m' + 1) := by omega
            rw [harith] at hrec
            rw [← h]
            exact hrec

theorem getDeltaValues_eq_map (st : List PerfSlot) :
    getDeltaValues st = st.map (fun s => (s.value : ℚ) - (s.prevValue : ℚ)) := by
  induction st with
  | nil => rfl
  | cons s rest ih =>
    simp [getDeltaValues, getValues, prevVec, vecSub] at ih ⊢

end PerfPointwise

section PerfInvariants

open PerfStatCounters

theorem disable_invZero {st : List PerfSlot} (h : InvZero st) : InvZero (disable st) := by
  intro s' hs'
  rcases List.mem_map.1 hs' with ⟨s, hs, rfl⟩
  by_cases hfd : (0 : Int) ≤ s.fd
  · simp [hfd]
  · simpa [hfd] using h s hs

theorem disable_allZero {st : List PerfSlot} (h : InvZero st) :
    ∀ s ∈ disable st, s.value = 0 ∧ s.prevValue = 0 := by
  intro s' hs'
  rcases List.mem_map.1 hs' with ⟨s, hs, rfl⟩
  by_cases hfd : (0 : Int) ≤ s.fd
  · simp [hfd]
  · have := h s hs (by omega)
    simpa [hfd] using this

theorem updateSlots_invZero (reads : Nat → Option Nat) :
    ∀ (i : Nat) (st out : List PerfSlot), updateSlots reads i st = some out →
      InvZero st → InvZero out := by
  intro i st
  induction st generalizing i with
  | nil =>
    intro out h _
    simp [updateSlots] at h
    simp [h, InvZero]
  | cons s rest ih =>
    intro out h hinv
    have hinvrest : InvZero rest := fun x hx => hinv x (List.mem_cons_of_mem _ hx)
    unfold updateSlots at h
    by_cases hfd : s.fd < 0
    · rw [if_pos hfd] at h
      cases hr : updateSlots reads (i+1) rest with
      | none => rw [hr] at h; simp at h
      | some l =>
        rw [hr] at h; simp at h
        intro x hx
        rw [← h] at hx
        rcases List.mem_cons.1 hx with hx0 | hxl
        · intro _
          rw [hx0]
          exact ⟨rfl, (hinv s (List.mem_cons_self s rest) hfd).1⟩
        · exact ih (i+1) l hr hinvrest x hxl
    · rw [if_neg hfd] at h
      cases hread : reads i with
      | none => rw [hread] at h; simp at h
      | some v =>
        rw [hread] at h
        cases hr : updateSlots reads (i+1) rest with
        | none => rw [hr] at h; simp at h
        | some l =>
          rw [hr] at h; simp at h
          intro x hx
          rw [← h] at hx
          rcases List.mem_cons.1 hx with hx0 | hxl
          · intro hneg
            rw [hx0] at hneg
            simp at hneg
            omega
          · exact ih (i+1) l hr hinvrest x hxl

theorem updateSlots_prevZero (reads : Nat → Option Nat) :
    ∀ (i : Nat) (st out : List PerfSlot), updateSlots reads i st = some out →
      (∀ s ∈ st, s.value = 0) → ∀ s ∈ out, s.prevValue = 0 := by
  intro i st
  induction st generalizing i with
  | nil =>
    intro out h _
    simp [updateSlots] at h
    simp [h]
  | cons s rest ih =>
    intro out h hzero
    have hzrest : ∀ x ∈ rest, x.value = 0 := fun x hx => hzero x (List.mem_cons_of_mem _ hx)
    have hs0 : s.value = 0 := hzero s (List.mem_cons_self s rest)
    unfold updateSlots at h
    by_cases hfd : s.fd < 0
    · rw [if_pos hfd] at h
      cases hr : updateSlots reads (i+1) rest with
      | none => rw [hr] at h; simp at h
      | some l =>
        rw [hr] at h; simp at h
        intro x hx
        rw [← h] at hx
        rcases List.mem_cons.1 hx with hx0 | hxl
        · rw [hx0]; exact hs0
        · exact ih (i+1) l hr hzrest x hxl
    · rw [if_neg hfd] at h
      cases hread : reads i with
      | none => rw [hread] at h; simp at h
      | some v =>
        rw [hread] at h
        cases hr : updateSlots reads (i+1) rest with
        | none => rw [hr] at h; simp at h
        | some l =>
          rw [hr] at h; simp at h
          intro x hx
          rw [← h] at hx
          rcases List.mem_cons.1 hx with hx0 | hxl
          · rw [hx0]; exact hs0
          · exact ih (i+1) l hr hzrest x hxl

theorem createSlots_invZero (os : Nat → PerfOpenResult) :
    ∀ (i : Nat) (st out : List PerfSlot), (createSlots os i st).1 = some out →
      InvZero st → InvZero out := by
  intro i st
  induction st generalizing i with
  | nil =>
    intro out h _
    simp [createSlots] at h
    simp [h, InvZero]
  | cons s rest ih =>
    intro out h hinv
    have hinvrest : InvZero rest := fun x hx => hinv x (List.mem_cons_of_mem _ hx)
    unfold createSlots at h
    cases hos : os i with
    | otherError => rw [hos] at h; simp at h
    | enoent =>
      rw [hos] at h; simp only at h
      cases hr : (createSlots os (i+1) rest).1 with
      | none => rw [hr] at h; simp at h
      | some l =>
        rw [hr] at h; simp at h
        intro x hx
        rw [← h] at hx
        rcases List.mem_cons.1 hx with hx0 | hxl
        · intro _; rw [hx0]; exact ⟨rfl, rfl⟩
        · exact ih (i+1) l hr hinvrest x hxl
    | ok fd =>
      rw [hos] at h; simp only at h
      cases hr : (createSlots os (i+1) rest).1 with
      | none => rw [hr] at h; simp at h
      | some l =>
        rw [hr] at h; simp at h
        intro x hx
        rw [← h] at hx
        rcases List.mem_cons.1 hx with hx0 | hxl
        · intro hneg
          rw [hx0] at hneg
          simp at hneg
          omega
        · exact ih (i+1) l hr hinvrest x hxl

theorem createSlots_allZero (os : Nat → PerfOpenResult) :
    ∀ (i : Nat) (st out : List PerfSlot), (createSlots os i st).1 = some out →
      (∀ s ∈ st, s.value = 0 ∧ s.prevValue = 0) →
      ∀ s ∈ out, s.value = 0 ∧ s.prevValue = 0 := by
  intro i st
  induction st generalizing i with
  | nil =>
    intro out h _
    simp [createSlots] at h
    simp [h]
  | cons s rest ih =>
    intro out h hzero
    have hzrest : ∀ x ∈ rest, x.value = 0 ∧ x.prevValue = 0 :=
      fun x hx => hzero x (List.mem_cons_of_mem _ hx)
    have hs0 := hzero s (List.mem_cons_self s rest)
    unfold createSlots at h
    cases hos : os i with
    | otherError => rw [hos] at h; simp at h
    | enoent =>
      rw [hos] at h; simp only at h
      cases hr : (createSlots os (i+1) rest).1 with
      | none => rw [hr] at h; simp at h
      | some l =>
        rw [hr] at h; simp at h
        intro x hx
        rw [← h] at hx
        rcases List.mem_cons.1 hx with hx0 | hxl
        · rw [hx0]; exact ⟨rfl, rfl⟩
        · exact ih (i+1) l hr hzrest x hxl
    | ok fd =>
      rw [hos] at h; simp only at h
      cases hr : (createSlots os (i+1) rest).1 with
      | none => rw [hr] at h; simp at h
      | some l =>
        rw [hr] at h; simp at h
        intro x hx
        rw [← h] at hx
        rcases List.mem_cons.1 hx with hx0 | hxl
        · rw [hx0]; exact hs0
        · exact ih (i+1) l hr hzrest x hxl

theorem mk_allZero {typeIds ctrNames : List Nat} {os : Nat → PerfOpenResult}
    {st0 : List PerfSlot} (h : (mkPerfStatCounters typeIds ctrNames os).1 = some st0) :
    ∀ s ∈ st0, s.value = 0 ∧ s.prevValue = 0 := by
  by_cases hlen : typeIds.length = ctrNames.length
  · simp only [mkPerfStatCounters, createCounterFds, if_pos hlen] at h
    cases hr : (createSlots os 0 (ctrNames.map (fun _ => (⟨-1, 0, 0⟩ : PerfSlot)))).1 with
    | none => rw [hr] at h; simp at h
    | some l =>
      rw [hr] at h; simp at h
      have hl : ∀ s ∈ l, s.value = 0 ∧ s.prevValue = 0 := by
        refine createSlots_allZero os 0 _ l hr ?_
        intro x hx
        rcases List.mem_map.1 hx with ⟨_, _, rfl⟩
        exact ⟨rfl, rfl⟩
      intro x hx
      rw [← h] at hx
      rcases List.mem_map.1 hx with ⟨s, hs, rfl⟩
      exact ⟨(hl s hs).1, (hl s hs).1⟩
  · simp [mkPerfStatCounters, if_neg hlen] at h

end PerfInvariants

section PerfRun

open PerfStatCounters

theorem runOps_nil (st : List PerfSlot) : runOps st [] = some st := rfl

theorem foldl_bind_none (ops : List PerfOp) :
    ops.foldl (fun acc op => acc.bind (fun s => applyOp s op)) none = none := by
  induction ops with
  | nil => rfl
  | cons op ops ih =>
    rw [List.foldl_cons]
    exact ih

theorem runOps_cons (st : List PerfSlot) (op : PerfOp) (ops : List PerfOp) :
    runOps st (op :: ops) = (applyOp st op).bind (fun s => runOps s ops) := by
  unfold runOps
  rw [List.foldl_cons]
  cases h : applyOp st op with
  | none =>
    have hred : (some st).bind (fun s => applyOp s op) = none := by
      rw [Option.some_bind, h]
    rw [hred, foldl_bind_none]
    rfl
  | some st1 =>
    have hred : (some st).bind (fun s => applyOp s op) = some st1 := by
      rw [Option.some_bind, h]
    rw [hred]
    rfl

theorem applyOp_invZero {st st' : List PerfSlot} {op : PerfOp}
    (h : applyOp st op = some st') (hinv : InvZero st) : InvZero st' := by
  cases op with
  | enable =>
    simp only [applyOp, enable] at h
    rw [← Option.some.inj h]
    exact hinv
  | reenable =>
    simp only [applyOp, reenable] at h
    rw [← Option.some.inj h]
    exact hinv
  | disable =>
    simp only [applyOp] at h
    rw [← Option.some.inj h]
    exact disable_invZero hinv
  | update reads =>
    simp only [applyOp, updateCounters] at h
    exact updateSlots_invZero reads 0 st st' h hinv
  | create t c os =>
    simp only [applyOp, createCounterFds] at h
    by_cases hlen : t.length = c.length
    · rw [if_pos hlen] at h
      exact createSlots_invZero os 0 st st' h hinv
    · rw [if_neg hlen] at h
      simp at h

theorem runOps_invZero :
    ∀ (ops : List PerfOp) (st st' : List PerfSlot), runOps st ops = some st' →
      InvZero st → InvZero st' := by
  intro ops
  induction ops with
  | nil =>
    intro st st' h hinv
    rw [runOps_nil] at h
    rw [← Option.some.inj h]
    exact hinv
  | cons op ops ih =>
    intro st st' h hinv
    rw [runOps_cons] at h
    cases hap : applyOp st op with
    | none => rw [hap] at h; simp at h
    | some st1 =>
      rw [hap, Option.some_bind] at h
      exact ih st1 st' h (applyOp_invZero hap hinv)

theorem getDeltaValues_get? (st : List PerfSlot) (m : Nat) :
    (getDeltaValues st).get? m =
      (st.get? m).map (fun s => (s.value : ℚ) - (s.prevValue : ℚ)) := by
  rw [getDeltaValues_eq_map]
  exact List.get?_map _ st m

theorem getValues_get? (st : List PerfSlot) (m : Nat) :
    (getValues st).get? m = (st.get? m).map (fun s => (s.value : ℚ)) :=
  List.get?_map _ st m

theorem applyOp_unsupported {st st' : List PerfSlot} {op : PerfOp} {i : Nat}
    (h : applyOp st op = some st') (hk : opKeepsUnsupported i op)
    (hu : UnsupportedAt i st) : UnsupportedAt i st' := by
  cases op with
  | enable =>
    simp only [applyOp, enable] at h
    rw [UnsupportedAt, ← Option.some.inj h]
    exact hu
  | reenable =>
    simp only [applyOp, reenable] at h
    rw [UnsupportedAt, ← Option.some.inj h]
    exact hu
  | disable =>
    simp only [applyOp] at h
    rw [UnsupportedAt, ← Option.some.inj h, disable, List.get?_map, hu]
    norm_num
  | update reads =>
    simp only [applyOp, updateCounters] at h
    rw [UnsupportedAt, updateSlots_get? reads 0 st st' h i, hu]
    norm_num
  | create t c os =>
    simp only [applyOp, createCounterFds] at h
    by_cases hlen : t.length = c.length
    · rw [if_pos hlen] at h
      have := createSlots_get? os 0 st st' h i
      have hos : os i = PerfOpenResult.enoent := hk
      rw [UnsupportedAt, this, hu]
      simp [hos]
    · rw [if_neg hlen] at h
      simp at h

theorem runOps_unsupported {i : Nat} :
    ∀ (ops : List PerfOp) (st st' : List PerfSlot), runOps st ops = some st' →
      (∀ op ∈ ops, opKeepsUnsupported i op) → UnsupportedAt i st → UnsupportedAt i st' := by
  intro ops
  induction ops with
  | nil =>
    intro st st' h _ hu
    rw [runOps_nil] at h
    rw [UnsupportedAt, ← Option.some.inj h]
    exact hu
  | cons op ops ih =>
    intro st st' h hops hu
    rw [runOps_cons] at h
    cases hap : applyOp st op with
    | none => rw [hap] at h; simp at h
    | some st1 =>
      rw [hap, Option.some_bind] at h
      refine ih st1 st' h (fun o ho => hops o (List.mem_cons_of_mem _ ho)) ?_
      exact applyOp_unsupported hap (hops op (List.mem_cons_self _ _)) hu

end PerfRun

section ListHelpers

theorem listGetD_set_ne {α : Type} (d : α) (l : List α) :
    ∀ (i j : Nat) (a : α), i ≠ j → (l.set i a).getD j d = l.getD j d := by
  induction l with
  | nil => intro i j a _; rfl
  | cons x xs ih =>
    intro i j a hij
    cases i with
    | zero =>
      cases j with
      | zero => exact absurd rfl hij
      | succ m => rfl
    | succ p =>
      cases j with
      | zero => rfl
      | succ m =>
        show (xs.set p a).getD m d = xs.getD m d
        exact ih p m a (fun hpm => hij (by rw [hpm]))

theorem listGetD_set_self {α : Type} (d : α) (l : List α) :
    ∀ (i : Nat) (a : α), i < l.length → (l.set i a).getD i d = a := by
  induction l with
  | nil => intro i a h; simp at h
  | cons x xs ih =>
    intro i a h
    cases i with
    | zero => rfl
    | succ p =>
      show (xs.set p a).getD p d = a
      exact ih p a (by simpa using h)

theorem listGetD_default {α : Type} (d : α) (l : List α) :
    ∀ (i : Nat), l.length ≤ i → l.getD i d = d := by
  induction l with
  | nil => intro i _; rfl
  | cons x xs ih =>
    intro i h
    cases i with
    | zero => simp at h
    | succ p => exact ih p (by simpa using h)

theorem listGetD_range (n : Nat) :
    ∀ (i : Nat), i < n → (List.range n).getD i 0 = i := by
  intro i h
  rw [List.getD_eq_getElem?_getD, List.getElem?_range h]
  rfl

end ListHelpers

section CorePerfBranches

open PerfStatCounters

theorem corePerfRead_shutdown_branch (st : CorePerfState) (now nowReact : ℤ)
    (instOs cacheOs : Nat → PerfOpenResult) (instReads cacheReads : Nat → Option Nat)
    (hsd : st.shutDown = false) :
    corePerfReadFromSystem st false now nowReact instOs cacheOs instReads cacheReads =
      some { values := [(0 : ℚ), 0], prevValues := st.prevValues,
             instCtr := PerfStatCounters.disable st.instCtr,
             cacheCtr := PerfStatCounters.disable st.cacheCtr,
             shutDown := true, prevSampleTime := now } := by
  unfold corePerfReadFromSystem
  rw [if_pos ⟨rfl, hsd⟩]
  rfl

theorem corePerfRead_react_branch (st : CorePerfState) (now nowReact : ℤ)
    (instOs cacheOs : Nat → PerfOpenResult) (instReads cacheReads : Nat → Option Nat)
    (hsd : st.shutDown = true) :
    corePerfReadFromSystem st true now nowReact instOs cacheOs instReads cacheReads =
      (corePerfHandleReactivation { st with prevSampleTime := now } nowReact instOs cacheOs).map
        (fun st2 => { st2 with values := [(0 : ℚ), 0] }) := by
  unfold corePerfReadFromSystem
  rw [if_neg (fun hc => absurd hc.1 (by decide)), if_pos ⟨rfl, hsd⟩]

theorem corePerfRead_read_branch (st : CorePerfState) (now nowReact : ℤ)
    (instOs cacheOs : Nat → PerfOpenResult) (instReads cacheReads : Nat → Option Nat)
    (hsd : st.shutDown = false) :
    corePerfReadFromSystem st true now nowReact instOs cacheOs instReads cacheReads =
      match updateCounters st.instCtr instReads with
      | none => none
      | some inst =>
        match updateCounters st.cacheCtr cacheReads with
        | none => none
        | some cache =>
          some { values :=
                   [(if 0 < ((now - st.prevSampleTime : ℤ) : ℚ) then
                       (getDeltaValues inst).getD 0 0 / ((now - st.prevSampleTime : ℤ) : ℚ)
                     else 0),
                    (if 0 < (getDeltaValues inst).getD 0 0 then
                       (getDeltaValues cache).getD 1 0 * 1000 / (getDeltaValues inst).getD 0 0
                     else 0)],
                 prevValues := st.prevValues, instCtr := inst, cacheCtr := cache,
                 shutDown := st.shutDown, prevSampleTime := now } := by
  unfold corePerfReadFromSystem
  rw [if_neg (fun hc => absurd hc.1 (by decide)),
    if_neg (fun hc => by rw [hsd] at hc; exact absurd hc.2 (by decide))]

end CorePerfBranches

section ClaimC8

open PerfStatCounters

/-- C8: for every `PerfStatCounters` construction (`mkPerfStatCounters`)
or reconstruction (`createCounterFds`) where the counter-type list and
the counter-id list have unequal lengths, the operation fails fatally
immediately (`none`) and the trace of `perf_event_open` calls made
before that failure is empty. -/
theorem claim_C8_length_mismatch_fatal_before_os
    (st : List PerfSlot) (typeIds ctrNames : List Nat) (os : Nat → PerfOpenResult)
    (h : typeIds.length ≠ ctrNames.length) :
    mkPerfStatCounters typeIds ctrNames os = (none, [])
    ∧ createCounterFds st typeIds ctrNames os = (none, []) := by
  constructor
  · rw [mkPerfStatCounters, if_neg h]
  · rw [createCounterFds, if_neg h]

/-- Witness for C8 at a concrete mismatched configuration (two types,
one event id). -/
theorem claim_C8_witness :
    ([0, 0] : List Nat).length ≠ ([1] : List Nat).length
    ∧ mkPerfStatCounters [0, 0] [1] (fun _ => PerfOpenResult.ok 3) = (none, [])
    ∧ createCounterFds [⟨-1, 0, 0⟩] [0, 0] [1] (fun _ => PerfOpenResult.ok 3) = (none, []) :=
  ⟨by decide,
   claim_C8_length_mismatch_fatal_before_os [⟨-1, 0, 0⟩] [0, 0] [1]
     (fun _ => PerfOpenResult.ok 3) (by decide)⟩

end ClaimC8

section ClaimC9

/-- C9: for every power-sensor sampling step whose measured elapsed time
is not positive (zero microseconds under the monotonic clock), the
sensor publishes power 0.0 instead of dividing by zero, while still
advancing the stored cumulative energy counter and the previous-sample
timestamp.  Stated for both `CPUPowerSensor` and `DRAMPowerSensor`. -/
theorem claim_C9_nonpositive_elapsed_publishes_zero
    (st dst : PowerSensorState) (readings : List ℚ) (e : ℚ) (now now' : ℤ)
    (hv : 0 < st.values.length) (hdt : now - st.prevSampleTime ≤ 0)
    (hv' : 0 < dst.values.length) (hdt' : now' - dst.prevSampleTime ≤ 0) :
    ((cpuPowerReadFromSystem st readings now).values.getD 0 0 = 0
      ∧ (cpuPowerReadFromSystem st readings now).energyCtr
          = readings.foldl (fun a tmp => a + tmp) 0
      ∧ (cpuPowerReadFromSystem st readings now).prevSampleTime = now)
    ∧ ((dramPowerReadFromSystem dst e now').values.getD 0 0 = 0
      ∧ (dramPowerReadFromSystem dst e now').energyCtr = e
      ∧ (dramPowerReadFromSystem dst e now').prevSampleTime = now') := by
  constructor
  · refine ⟨?_, rfl, rfl⟩
    show ((st.values.set 0 (if 0 < now - st.prevSampleTime then _ else 0)).getD 0 0) = 0
    rw [if_neg (by omega), listGetD_set_self _ _ _ _ hv]
  · refine ⟨?_, rfl, rfl⟩
    show ((dst.values.set 0 (if 0 < now' - dst.prevSampleTime then _ else 0)).getD 0 0) = 0
    rw [if_neg (by omega), listGetD_set_self _ _ _ _ hv']

/-- Witness for C9: a second sample taken zero microseconds after the
first. -/
theorem claim_C9_witness :
    (0 : Nat) < (mkPowerSensor 7).values.length
    ∧ (7 : ℤ) - (mkPowerSensor 7).prevSampleTime ≤ 0
    ∧ ((cpuPowerReadFromSystem (mkPowerSensor 7) [100] 7).values.getD 0 0 = 0
      ∧ (cpuPowerReadFromSystem (mkPowerSensor 7) [100] 7).energyCtr
          = ([(100 : ℚ)]).foldl (fun a tmp => a + tmp) 0
      ∧ (cpuPowerReadFromSystem (mkPowerSensor 7) [100] 7).prevSampleTime = 7)
    ∧ ((dramPowerReadFromSystem (mkPowerSensor 7) 100 7).values.getD 0 0 = 0
      ∧ (dramPowerReadFromSystem (mkPowerSensor 7) 100 7).energyCtr = 100
      ∧ (dramPowerReadFromSystem (mkPowerSensor 7) 100 7).prevSampleTime = 7) :=
  ⟨by decide, by decide,
   claim_C9_nonpositive_elapsed_publishes_zero (mkPowerSensor 7) (mkPowerSensor 7)
     [100] 100 7 7 (by decide) (by decide) (by decide) (by decide)⟩

end ClaimC9

section ClaimC3

/-- C3: for every power-sensor sampling step with a positive elapsed
time, the published value equals (current cumulative energy − previous
cumulative energy) divided by the elapsed wall time since the previous
sample (the source divides microjoules by microseconds).  In particular,
a synthetic source reporting 100 µJ at t = 0 s and 300 µJ at t = 1 s
(= 10^6 µs) publishes 200/10^6 µJ/µs, i.e. 200 µJ/s; a wrapped source
reporting 300 µJ then 50 µJ yields a negative computed value. -/
theorem claim_C3_power_equals_energy_delta_over_time
    (st dst : PowerSensorState) (readings : List ℚ) (e : ℚ) (now now' : ℤ)
    (hv : 0 < st.values.length) (hdt : 0 < now - st.prevSampleTime)
    (hv' : 0 < dst.values.length) (hdt' : 0 < now' - dst.prevSampleTime) :
    (cpuPowerReadFromSystem st readings now).values.getD 0 0
      = (readings.foldl (fun a tmp => a + tmp) 0 - st.energyCtr)
          / ((now - st.prevSampleTime : ℤ) : ℚ)
    ∧ (dramPowerReadFromSystem dst e now').values.getD 0 0
      = (e - dst.energyCtr) / ((now' - dst.prevSampleTime : ℤ) : ℚ)
    ∧ (cpuPowerUpdate (cpuPowerUpdate (mkPowerSensor 0) ([100], 0)) ([300], 1000000)).values.getD 0 0
      = 200 / 1000000
    ∧ (dramPowerUpdate (dramPowerUpdate (mkPowerSensor 0) (300, 0)) (50, 1000000)).values.getD 0 0
      < 0 := by
  refine ⟨?_, ?_, ?_, ?_⟩
  · show (st.values.set 0 _).getD 0 0 = _
    rw [listGetD_set_self _ _ _ _ hv, if_pos hdt]
  · show (dst.values.set 0 _).getD 0 0 = _
    rw [listGetD_set_self _ _ _ _ hv', if_pos hdt']
  · norm_num [cpuPowerUpdate, cpuPowerReadFromSystem, mkPowerSensor, makeVector, List.replicate]
  · norm_num [dramPowerUpdate, dramPowerReadFromSystem, mkPowerSensor, makeVector, List.replicate]

/-- Witness for C3: one-microsecond-old baseline states with positive
elapsed time. -/
theorem claim_C3_witness :
    (0 : Nat) < (mkPowerSensor 0).values.length
    ∧ (0 : ℤ) < 1000000 - (mkPowerSensor 0).prevSampleTime
    ∧ ((cpuPowerReadFromSystem (mkPowerSensor 0) [300] 1000000).values.getD 0 0
        = (([(300 : ℚ)]).foldl (fun a tmp => a + tmp) 0 - (mkPowerSensor 0).energyCtr)
            / ((1000000 - (mkPowerSensor 0).prevSampleTime : ℤ) : ℚ)
      ∧ (dramPowerReadFromSystem (mkPowerSensor 0) 300 1000000).values.getD 0 0
        = (300 - (mkPowerSensor 0).energyCtr) / ((1000000 - (mkPowerSensor 0).prevSampleTime : ℤ) : ℚ)
      ∧ (cpuPowerUpdate (cpuPowerUpdate (mkPowerSensor 0) ([100], 0)) ([300], 1000000)).values.getD 0 0
        = 200 / 1000000
      ∧ (dramPowerUpdate (dramPowerUpdate (mkPowerSensor 0) (300, 0)) (50, 1000000)).values.getD 0 0
        < 0) :=
  ⟨by decide, by decide,
   claim_C3_power_equals_energy_delta_over_time (mkPowerSensor 0) (mkPowerSensor 0)
     [300] 300 1000000 1000000 (by decide) (by decide) (by decide) (by decide)⟩

end ClaimC3

section ClaimC1

open PerfStatCounters

/-- C1: for every counter group built by the `PerfStatCounters`
constructor with at least one configured event, after any sequence of
lifetime operations, `getDeltaValues` returns the elementwise
difference of the current raw values minus the previous raw values, and
every slot marked permanently unsupported (`fd = -2`) has delta entry
zero. -/
theorem claim_C1_delta_elementwise_unsupported_zero
    (typeIds ctrNames : List Nat) (os : Nat → PerfOpenResult)
    (st0 st : List PerfSlot) (ops : List PerfOp)
    (hmk : (mkPerfStatCounters typeIds ctrNames os).1 = some st0)
    (hn : 1 ≤ ctrNames.length)
    (hrun : runOps st0 ops = some st) :
    (∀ m s, st.get? m = some s →
        (getDeltaValues st).get? m = some ((s.value : ℚ) - (s.prevValue : ℚ)))
    ∧ (∀ m s, st.get? m = some s → s.fd = -2 →
        (getDeltaValues st).get? m = some 0) := by
  have hinv : InvZero st :=
    runOps_invZero ops st0 st hrun (fun s hs _ => mk_allZero hmk s hs)
  constructor
  · intro m s hm
    rw [getDeltaValues_get?, hm]
    rfl
  · intro m s hm hfd
    have hz := hinv s (List.get?_mem hm) (by rw [hfd]; norm_num)
    rw [getDeltaValues_get?, hm]
    simp [hz.1, hz.2]

/-- Witness for C1: a one-event group created successfully, with no
further operations. -/
theorem claim_C1_witness :
    ((mkPerfStatCounters [0] [1] (fun _ => PerfOpenResult.ok 3)).1
        = some [⟨3, 0, 0⟩])
    ∧ 1 ≤ ([1] : List Nat).length
    ∧ runOps [⟨3, 0, 0⟩] [] = some [⟨3, 0, 0⟩]
    ∧ ((∀ m s, ([(⟨3, 0, 0⟩ : PerfSlot)]).get? m = some s →
          (getDeltaValues [⟨3, 0, 0⟩]).get? m = some ((s.value : ℚ) - (s.prevValue : ℚ)))
      ∧ (∀ m s, ([(⟨3, 0, 0⟩ : PerfSlot)]).get? m = some s → s.fd = -2 →
          (getDeltaValues [⟨3, 0, 0⟩]).get? m = some 0)) :=
  ⟨by decide, by decide, rfl,
   claim_C1_delta_elementwise_unsupported_zero [0] [1] (fun _ => PerfOpenResult.ok 3)
     [⟨3, 0, 0⟩] [⟨3, 0, 0⟩] [] (by decide) (by decide) rfl⟩

end ClaimC1

section ClaimC4

open PerfStatCounters

/-- C4: for every event slot for which `createCounterFds` reports the
unsupported condition (ENOENT), that single slot is marked unsupported
(`fd = -2`) with zeroed values, it contributes zero to every subsequent
read (`getValues`) and delta (`getDeltaValues`) and never becomes
supported again within the group's lifetime (any re-creation asks the
same OS, which answers ENOENT again for the same event), while sibling
events whose creation succeeded are created with their descriptors and
continue to be read by `updateCounters`. -/
theorem claim_C4_enoent_slot_permanently_zero_siblings_live
    (st st1 : List PerfSlot) (typeIds ctrNames : List Nat)
    (os : Nat → PerfOpenResult) (calls : List Nat) (i : Nat)
    (hcreate : createCounterFds st typeIds ctrNames os = (some st1, calls))
    (hinv : InvZero st)
    (hi : os i = PerfOpenResult.enoent) (hlt : i < st.length) :
    st1.get? i = some ⟨-2, 0, 0⟩
    ∧ (∀ ops st2, runOps st1 ops = some st2 →
        (∀ op ∈ ops, opKeepsUnsupported i op) →
        st2.get? i = some ⟨-2, 0, 0⟩
          ∧ (getDeltaValues st2).get? i = some 0
          ∧ (getValues st2).get? i = some 0)
    ∧ (∀ j fd s, os j = PerfOpenResult.ok fd → st.get? j = some s →
        st1.get? j = some ⟨(fd : Int), s.value, s.prevValue⟩)
    ∧ (∀ reads st2, updateCounters st1 reads = some st2 →
        ∀ j fd v s, os j = PerfOpenResult.ok fd → reads j = some v →
          st.get? j = some s → st2.get? j = some ⟨(fd : Int), v, s.value⟩) := by
  have hc1 : (createCounterFds st typeIds ctrNames os).1 = some st1 := by
    rw [hcreate]
  have hlen : typeIds.length = ctrNames.length := by
    by_contra hne
    rw [createCounterFds, if_neg hne] at hc1
    simp at hc1
  have hcs : (createSlots os 0 st).1 = some st1 := by
    rw [createCounterFds, if_pos hlen] at hc1
    exact hc1
  have hslot : ∀ (m : Nat), st1.get? m = (st.get? m).map (fun s =>
      match os m with
      | .ok fd => (⟨(fd : Int), s.value, s.prevValue⟩ : PerfSlot)
      | .enoent => (⟨-2, 0, 0⟩ : PerfSlot)
      | .otherError => s) := by
    intro m
    have := createSlots_get? os 0 st st1 hcs m
    rwa [Nat.zero_add] at this
  obtain ⟨s0, hs0⟩ : ∃ s0, st.get? i = some s0 := by
    cases hg : st.get? i with
    | none =>
      rw [List.get?_eq_none] at hg
      omega
    | some s0 => exact ⟨s0, rfl⟩
  have ha : st1.get? i = some ⟨-2, 0, 0⟩ := by
    rw [hslot i, hs0, hi]
    rfl
  refine ⟨ha, ?_, ?_, ?_⟩
  · intro ops st2 hrun hops
    have hu : UnsupportedAt i st2 := runOps_unsupported ops st1 st2 hrun hops ha
    refine ⟨hu, ?_, ?_⟩
    · rw [getDeltaValues_get?, hu]
      norm_num
    · rw [getValues_get?, hu]
      norm_num
  · intro j fd s hosj hsj
    rw [hslot j, hsj, hosj]
    rfl
  · intro reads st2 hupd j fd v s hosj hrv hsj
    have h1j : st1.get? j = some ⟨(fd : Int), s.value, s.prevValue⟩ := by
      rw [hslot j, hsj, hosj]
      rfl
    have h2j := updateSlots_get? reads 0 st1 st2 hupd j
    rw [Nat.zero_add] at h2j
    rw [h2j, h1j]
    have hnotneg : ¬ ((⟨(fd : Int), s.value, s.prevValue⟩ : PerfSlot).fd < 0) := by
      simp
    rw [Option.map_some']
    simp only [hnotneg, if_false, hrv]
    rfl

/-- Witness for C4: a two-event group whose first event is unsupported
and whose second is created with descriptor 5, followed by one update
that reads 42 on the surviving sibling. -/
theorem claim_C4_witness :
    (createCounterFds [⟨-1, 0, 0⟩, ⟨-1, 0, 0⟩] [0, 0] [2, 3]
        (fun n => if n = 0 then PerfOpenResult.enoent else PerfOpenResult.ok 5)
      = (some [⟨-2, 0, 0⟩, ⟨5, 0, 0⟩], [0, 1]))
    ∧ InvZero [⟨-1, 0, 0⟩, ⟨-1, 0, 0⟩]
    ∧ (fun n => if n = 0 then PerfOpenResult.enoent else PerfOpenResult.ok 5) 0
        = PerfOpenResult.enoent
    ∧ 0 < ([(⟨-1, 0, 0⟩ : PerfSlot), ⟨-1, 0, 0⟩]).length
    ∧ (([(⟨-2, 0, 0⟩ : PerfSlot), ⟨5, 0, 0⟩]).get? 0 = some ⟨-2, 0, 0⟩
      ∧ (∀ ops st2, runOps [⟨-2, 0, 0⟩, ⟨5, 0, 0⟩] ops = some st2 →
          (∀ op ∈ ops, opKeepsUnsupported 0 op) →
          st2.get? 0 = some ⟨-2, 0, 0⟩
            ∧ (getDeltaValues st2).get? 0 = some 0
            ∧ (getValues st2).get? 0 = some 0)
      ∧ (∀ j fd s,
          (fun n => if n = 0 then PerfOpenResult.enoent else PerfOpenResult.ok 5) j
              = PerfOpenResult.ok fd →
          ([(⟨-1, 0, 0⟩ : PerfSlot), ⟨-1, 0, 0⟩]).get? j = some s →
          ([(⟨-2, 0, 0⟩ : PerfSlot), ⟨5, 0, 0⟩]).get? j
              = some ⟨(fd : Int), s.value, s.prevValue⟩)
      ∧ (∀ reads st2, updateCounters [⟨-2, 0, 0⟩, ⟨5, 0, 0⟩] reads = some st2 →
          ∀ j fd v s,
            (fun n => if n = 0 then PerfOpenResult.enoent else PerfOpenResult.ok 5) j
                = PerfOpenResult.ok fd →
            reads j = some v →
            ([(⟨-1, 0, 0⟩ : PerfSlot), ⟨-1, 0, 0⟩]).get? j = some s →
            st2.get? j = some ⟨(fd : Int), v, s.value⟩)) :=
  ⟨by decide, by unfold PerfStatCounters.InvZero; decide, by decide, by decide,
   claim_C4_enoent_slot_permanently_zero_siblings_live
     [⟨-1, 0, 0⟩, ⟨-1, 0, 0⟩] [⟨-2, 0, 0⟩, ⟨5, 0, 0⟩] [0, 0] [2, 3]
     (fun n => if n = 0 then PerfOpenResult.enoent else PerfOpenResult.ok 5)
     [0, 1] 0 (by decide) (by unfold PerfStatCounters.InvZero; decide) (by decide) (by decide)⟩

end ClaimC4

section ClaimC7

open PerfStatCounters

/-- C7: for every `CorePerfSensor` sampling cycle in which the unit's
counters are actually read (unit active and sensor not shut down, reads
succeeding), the published MPKI (`values[1]`) equals 1000 times the
cycle's cache-miss delta divided by the cycle's instruction delta when
the instruction delta is positive, and equals zero when the instruction
delta is zero. -/
theorem claim_C7_mpki_formula
    (st st' : CorePerfState) (now nowReact : ℤ)
    (instOs cacheOs : Nat → PerfOpenResult) (instReads cacheReads : Nat → Option Nat)
    (hsd : st.shutDown = false)
    (hread : corePerfReadFromSystem st true now nowReact instOs cacheOs instReads cacheReads
      = some st') :
    (0 < (getDeltaValues st'.instCtr).getD 0 0 →
      st'.values.getD 1 0 =
        1000 * (getDeltaValues st'.cacheCtr).getD 1 0 / (getDeltaValues st'.instCtr).getD 0 0)
    ∧ ((getDeltaValues st'.instCtr).getD 0 0 = 0 → st'.values.getD 1 0 = 0) := by
  rw [corePerfRead_read_branch st now nowReact instOs cacheOs instReads cacheReads hsd] at hread
  cases hinst : updateCounters st.instCtr instReads with
  | none => rw [hinst] at hread; simp at hread
  | some inst =>
    cases hcache : updateCounters st.cacheCtr cacheReads with
    | none => rw [hinst, hcache] at hread; simp at hread
    | some cache =>
      rw [hinst, hcache] at hread
      simp only [Option.some_bind] at hread
      cases Option.some.inj hread
      constructor
      · intro hpos
        show (if 0 < (getDeltaValues inst).getD 0 0 then
            (getDeltaValues cache).getD 1 0 * 1000 / (getDeltaValues inst).getD 0 0 else 0) = _
        rw [if_pos hpos, mul_comm]
      · intro hzero
        show (if 0 < (getDeltaValues inst).getD 0 0 then
            (getDeltaValues cache).getD 1 0 * 1000 / (getDeltaValues inst).getD 0 0 else 0) = 0
        rw [hzero, if_neg (lt_irrefl 0)]

/-- Witness for C7: an active, non-shut-down sensor with one successful
read cycle (all counters read 0). -/
theorem claim_C7_witness :
    (({ values := [0, 0], prevValues := [0, 0], instCtr := [⟨3, 0, 0⟩],
        cacheCtr := [⟨4, 0, 0⟩, ⟨4, 0, 0⟩], shutDown := false,
        prevSampleTime := 0 } : CorePerfState).shutDown = false)
    ∧ (corePerfReadFromSystem
        { values := [0, 0], prevValues := [0, 0], instCtr := [⟨3, 0, 0⟩],
          cacheCtr := [⟨4, 0, 0⟩, ⟨4, 0, 0⟩], shutDown := false, prevSampleTime := 0 }
        true 1 0 (fun _ => PerfOpenResult.ok 9) (fun _ => PerfOpenResult.ok 9)
        (fun _ => some 0) (fun _ => some 0)
      = some { values :=
                 [(if 0 < ((1 - 0 : ℤ) : ℚ) then
                     (getDeltaValues [⟨3, 0, 0⟩]).getD 0 0 / ((1 - 0 : ℤ) : ℚ)
                   else 0),
                  (if 0 < (getDeltaValues [⟨3, 0, 0⟩]).getD 0 0 then
                     (getDeltaValues [⟨4, 0, 0⟩, ⟨4, 0, 0⟩]).getD 1 0 * 1000
                       / (getDeltaValues [⟨3, 0, 0⟩]).getD 0 0
                   else 0)],
               prevValues := [0, 0], instCtr := [⟨3, 0, 0⟩],
               cacheCtr := [⟨4, 0, 0⟩, ⟨4, 0, 0⟩], shutDown := false, prevSampleTime := 1 })
    ∧ ((0 < (getDeltaValues [(⟨3, 0, 0⟩ : PerfSlot)]).getD 0 0 →
          ([(if 0 < ((1 - 0 : ℤ) : ℚ) then
               (getDeltaValues [⟨3, 0, 0⟩]).getD 0 0 / ((1 - 0 : ℤ) : ℚ)
             else 0),
            (if 0 < (getDeltaValues [⟨3, 0, 0⟩]).getD 0 0 then
               (getDeltaValues [⟨4, 0, 0⟩, ⟨4, 0, 0⟩]).getD 1 0 * 1000
                 / (getDeltaValues [⟨3, 0, 0⟩]).getD 0 0
             else 0)] : List ℚ).getD 1 0 =
            1000 * (getDeltaValues [(⟨4, 0, 0⟩ : PerfSlot), ⟨4, 0, 0⟩]).getD 1 0
              / (getDeltaValues [(⟨3, 0, 0⟩ : PerfSlot)]).getD 0 0)
      ∧ ((getDeltaValues [(⟨3, 0, 0⟩ : PerfSlot)]).getD 0 0 = 0 →
          ([(if 0 < ((1 - 0 : ℤ) : ℚ) then
               (getDeltaValues [⟨3, 0, 0⟩]).getD 0 0 / ((1 - 0 : ℤ) : ℚ)
             else 0),
            (if 0 < (getDeltaValues [⟨3, 0, 0⟩]).getD 0 0 then
               (getDeltaValues [⟨4, 0, 0⟩, ⟨4, 0, 0⟩]).getD 1 0 * 1000
                 / (getDeltaValues [⟨3, 0, 0⟩]).getD 0 0
             else 0)] : List ℚ).getD 1 0 = 0)) :=
  ⟨rfl, rfl,
   claim_C7_mpki_formula
     { values := [0, 0], prevValues := [0, 0], instCtr := [⟨3, 0, 0⟩],
       cacheCtr := [⟨4, 0, 0⟩, ⟨4, 0, 0⟩], shutDown := false, prevSampleTime := 0 }
     { values :=
         [(if 0 < ((1 - 0 : ℤ) : ℚ) then
             (getDeltaValues [⟨3, 0, 0⟩]).getD 0 0 / ((1 - 0 : ℤ) : ℚ)
           else 0),
          (if 0 < (getDeltaValues [⟨3, 0, 0⟩]).getD 0 0 then
             (getDeltaValues [⟨4, 0, 0⟩, ⟨4, 0, 0⟩]).getD 1 0 * 1000
               / (getDeltaValues [⟨3, 0, 0⟩]).getD 0 0
           else 0)],
       prevValues := [0, 0], instCtr := [⟨3, 0, 0⟩],
       cacheCtr := [⟨4, 0, 0⟩, ⟨4, 0, 0⟩], shutDown := false, prevSampleTime := 1 }
     1 0 (fun _ => PerfOpenResult.ok 9) (fun _ => PerfOpenResult.ok 9)
     (fun _ => some 0) (fun _ => some 0) rfl rfl⟩

end ClaimC7

section ClaimC2

open PerfStatCounters

theorem createCounterFds_allZero {st out : List PerfSlot} {t c : List Nat}
    {os : Nat → PerfOpenResult}
    (h : (createCounterFds st t c os).1 = some out)
    (hz : ∀ s ∈ st, s.value = 0 ∧ s.prevValue = 0) :
    ∀ s ∈ out, s.value = 0 ∧ s.prevValue = 0 := by
  by_cases hlen : t.length = c.length
  · rw [createCounterFds, if_pos hlen] at h
    exact createSlots_allZero os 0 st out h hz
  · rw [createCounterFds, if_neg hlen] at h
    simp at h

theorem getDeltaValues_eq_getValues_of_prevZero (st : List PerfSlot)
    (h : ∀ s ∈ st, s.prevValue = 0) : getDeltaValues st = getValues st := by
  rw [getDeltaValues_eq_map]
  unfold getValues
  refine List.map_congr_left ?_
  intro s hs
  rw [h s hs]
  simp

/-- C2: flip a unit inactive (cycle 1: counters torn down and zeroed)
and then active again (cycle 2: groups re-created from fresh
descriptors); the next delta (cycle 3) for that unit's counter groups is
computed from a zero baseline: every slot's previous value is zero at
the read, so the delta equals the freshly read values, not a difference
against pre-shutdown cumulative counts. -/
theorem claim_C2_reactivation_zero_baseline
    (st st1 st2 st3 : CorePerfState)
    (now1 nr1 now2 nr2 now3 nr3 : ℤ)
    (os1 os1' os2 os2' os3 os3' : Nat → PerfOpenResult)
    (r1 r1' r2 r2' r3 r3' : Nat → Option Nat)
    (hinvI : InvZero st.instCtr) (hinvC : InvZero st.cacheCtr)
    (hsd : st.shutDown = false)
    (h1 : corePerfReadFromSystem st false now1 nr1 os1 os1' r1 r1' = some st1)
    (h2 : corePerfReadFromSystem st1 true now2 nr2 os2 os2' r2 r2' = some st2)
    (h3 : corePerfReadFromSystem st2 true now3 nr3 os3 os3' r3 r3' = some st3) :
    (∀ s ∈ st3.instCtr, s.prevValue = 0) ∧ (∀ s ∈ st3.cacheCtr, s.prevValue = 0)
    ∧ getDeltaValues st3.instCtr = getValues st3.instCtr
    ∧ getDeltaValues st3.cacheCtr = getValues st3.cacheCtr := by
  rw [corePerfRead_shutdown_branch st now1 nr1 os1 os1' r1 r1' hsd] at h1
  cases Option.some.inj h1
  rw [corePerfRead_react_branch _ now2 nr2 os2 os2' r2 r2' rfl] at h2
  simp only [corePerfHandleReactivation] at h2
  cases hci : (createCounterFds (PerfStatCounters.disable st.instCtr)
      corePerfInstTypes corePerfInstEvents os2).1 with
  | none => rw [hci] at h2; simp at h2
  | some inst2 =>
    cases hcc : (createCounterFds (PerfStatCounters.disable st.cacheCtr)
        corePerfCacheTypes corePerfCacheEvents os2').1 with
    | none => rw [hci, hcc] at h2; simp at h2
    | some cache2 =>
      rw [hci, hcc] at h2
      simp only [Option.some_bind, Option.map_some'] at h2
      cases Option.some.inj h2
      rw [corePerfRead_read_branch _ now3 nr3 os3 os3' r3 r3' rfl] at h3
      dsimp only at h3
      cases hui : updateCounters (PerfStatCounters.reenable inst2) r3 with
      | none => rw [hui] at h3; simp at h3
      | some inst3 =>
        cases huc : updateCounters (PerfStatCounters.reenable cache2) r3' with
        | none => rw [hui, huc] at h3; simp at h3
        | some cache3 =>
          rw [hui, huc] at h3
          simp only [Option.some_bind] at h3
          cases Option.some.inj h3
          have hzi1 : ∀ s ∈ PerfStatCounters.disable st.instCtr,
              s.value = 0 ∧ s.prevValue = 0 := disable_allZero hinvI
          have hzc1 : ∀ s ∈ PerfStatCounters.disable st.cacheCtr,
              s.value = 0 ∧ s.prevValue = 0 := disable_allZero hinvC
          have hzi2 : ∀ s ∈ inst2, s.value = 0 ∧ s.prevValue = 0 :=
            createCounterFds_allZero hci hzi1
          have hzc2 : ∀ s ∈ cache2, s.value = 0 ∧ s.prevValue = 0 :=
            createCounterFds_allZero hcc hzc1
          have hpi : ∀ s ∈ inst3, s.prevValue = 0 :=
            updateSlots_prevZero r3 0 (PerfStatCounters.reenable inst2) inst3 hui
              (fun s hs => (hzi2 s hs).1)
          have hpc : ∀ s ∈ cache3, s.prevValue = 0 :=
            updateSlots_prevZero r3' 0 (PerfStatCounters.reenable cache2) cache3 huc
              (fun s hs => (hzc2 s hs).1)
          exact ⟨hpi, hpc, getDeltaValues_eq_getValues_of_prevZero inst3 hpi,
            getDeltaValues_eq_getValues_of_prevZero cache3 hpc⟩

end ClaimC2

section ClaimC2Witness

open PerfStatCounters

/-- Witness for C2: a sensor with nonzero pre-shutdown cumulative counts
(instruction counter at 5, cache counters at 7 and 9) goes inactive,
comes back, and the next read (raw values 11) produces deltas equal to
the raw values themselves — a zero baseline. -/
theorem claim_C2_witness :
    InvZero [(⟨3, 5, 2⟩ : PerfSlot)]
    ∧ InvZero [(⟨4, 7, 1⟩ : PerfSlot), ⟨4, 9, 3⟩]
    ∧ (({ values := [0, 0], prevValues := [0, 0], instCtr := [⟨3, 5, 2⟩],
          cacheCtr := [⟨4, 7, 1⟩, ⟨4, 9, 3⟩], shutDown := false,
          prevSampleTime := 0 } : CorePerfState).shutDown = false)
    ∧ (corePerfReadFromSystem
        { values := [0, 0], prevValues := [0, 0], instCtr := [⟨3, 5, 2⟩],
          cacheCtr := [⟨4, 7, 1⟩, ⟨4, 9, 3⟩], shutDown := false, prevSampleTime := 0 }
        false 1 0 (fun _ => PerfOpenResult.ok 6) (fun _ => PerfOpenResult.ok 6)
        (fun _ => none) (fun _ => none)
      = some { values := [0, 0], prevValues := [0, 0], instCtr := [⟨-1, 0, 0⟩],
               cacheCtr := [⟨-1, 0, 0⟩, ⟨-1, 0, 0⟩], shutDown := true, prevSampleTime := 1 })
    ∧ (corePerfReadFromSystem
        { values := [0, 0], prevValues := [0, 0], instCtr := [⟨-1, 0, 0⟩],
          cacheCtr := [⟨-1, 0, 0⟩, ⟨-1, 0, 0⟩], shutDown := true, prevSampleTime := 1 }
        true 2 0 (fun _ => PerfOpenResult.ok 6) (fun _ => PerfOpenResult.ok 6)
        (fun _ => none) (fun _ => none)
      = some { values := [0, 0], prevValues := [0, 0], instCtr := [⟨6, 0, 0⟩],
               cacheCtr := [⟨6, 0, 0⟩, ⟨6, 0, 0⟩], shutDown := false, prevSampleTime := 0 })
    ∧ (corePerfReadFromSystem
        { values := [0, 0], prevValues := [0, 0], instCtr := [⟨6, 0, 0⟩],
          cacheCtr := [⟨6, 0, 0⟩, ⟨6, 0, 0⟩], shutDown := false, prevSampleTime := 0 }
        true 2 0 (fun _ => PerfOpenResult.ok 6) (fun _ => PerfOpenResult.ok 6)
        (fun _ => some 11) (fun _ => some 11)
      = some { values :=
                 [(if 0 < ((2 - 0 : ℤ) : ℚ) then
                     (getDeltaValues [⟨6, 11, 0⟩]).getD 0 0 / ((2 - 0 : ℤ) : ℚ)
                   else 0),
                  (if 0 < (getDeltaValues [⟨6, 11, 0⟩]).getD 0 0 then
                     (getDeltaValues [⟨6, 11, 0⟩, ⟨6, 11, 0⟩]).getD 1 0 * 1000
                       / (getDeltaValues [⟨6, 11, 0⟩]).getD 0 0
                   else 0)],
               prevValues := [0, 0], instCtr := [⟨6, 11, 0⟩],
               cacheCtr := [⟨6, 11, 0⟩, ⟨6, 11, 0⟩], shutDown := false, prevSampleTime := 2 })
    ∧ ((∀ s ∈ [(⟨6, 11, 0⟩ : PerfSlot)], s.prevValue = 0)
      ∧ (∀ s ∈ [(⟨6, 11, 0⟩ : PerfSlot), ⟨6, 11, 0⟩], s.prevValue = 0)
      ∧ getDeltaValues [⟨6, 11, 0⟩] = getValues [⟨6, 11, 0⟩]
      ∧ getDeltaValues [⟨6, 11, 0⟩, ⟨6, 11, 0⟩] = getValues [⟨6, 11, 0⟩, ⟨6, 11, 0⟩]) :=
  ⟨by unfold PerfStatCounters.InvZero; decide,
   by unfold PerfStatCounters.InvZero; decide, rfl, rfl, rfl, rfl,
   claim_C2_reactivation_zero_baseline
     { values := [0, 0], prevValues := [0, 0], instCtr := [⟨3, 5, 2⟩],
       cacheCtr := [⟨4, 7, 1⟩, ⟨4, 9, 3⟩], shutDown := false, prevSampleTime := 0 }
     { values := [0, 0], prevValues := [0, 0], instCtr := [⟨-1, 0, 0⟩],
       cacheCtr := [⟨-1, 0, 0⟩, ⟨-1, 0, 0⟩], shutDown := true, prevSampleTime := 1 }
     { values := [0, 0], prevValues := [0, 0], instCtr := [⟨6, 0, 0⟩],
       cacheCtr := [⟨6, 0, 0⟩, ⟨6, 0, 0⟩], shutDown := false, prevSampleTime := 0 }
     { values :=
         [(if 0 < ((2 - 0 : ℤ) : ℚ) then
             (getDeltaValues [⟨6, 11, 0⟩]).getD 0 0 / ((2 - 0 : ℤ) : ℚ)
           else 0),
          (if 0 < (getDeltaValues [⟨6, 11, 0⟩]).getD 0 0 then
             (getDeltaValues [⟨6, 11, 0⟩, ⟨6, 11, 0⟩]).getD 1 0 * 1000
               / (getDeltaValues [⟨6, 11, 0⟩]).getD 0 0
           else 0)],
       prevValues := [0, 0], instCtr := [⟨6, 11, 0⟩],
       cacheCtr := [⟨6, 11, 0⟩, ⟨6, 11, 0⟩], shutDown := false, prevSampleTime := 2 }
     1 0 2 0 2 0
     (fun _ => PerfOpenResult.ok 6) (fun _ => PerfOpenResult.ok 6)
     (fun _ => PerfOpenResult.ok 6) (fun _ => PerfOpenResult.ok 6)
     (fun _ => PerfOpenResult.ok 6) (fun _ => PerfOpenResult.ok 6)
     (fun _ => none) (fun _ => none) (fun _ => none) (fun _ => none)
     (fun _ => some 11) (fun _ => some 11)
     (by unfold PerfStatCounters.InvZero; decide)
     (by unfold PerfStatCounters.InvZero; decide)
     rfl rfl rfl rfl⟩

end ClaimC2Witness

section FoldHelpers

theorem foldl_preserves {α β : Type} (P : α → Prop) (f : α → β → α)
    (hf : ∀ a b, P a → P (f a b)) :
    ∀ (l : List β) (a : α), P a → P (l.foldl f a) := by
  intro l
  induction l with
  | nil => intro a h; exact h
  | cons b rest ih => intro a h; exact ih (f a b) (hf a b h)

theorem foldl_bind_none_generic {α β : Type} (f : α → β → Option α) :
    ∀ (l : List β), l.foldl (fun acc b => acc.bind (fun s => f s b)) none = none := by
  intro l
  induction l with
  | nil => rfl
  | cons b rest ih => rw [List.foldl_cons]; exact ih

theorem foldl_bind_preserves {α β : Type} (P : α → Prop) (f : α → β → Option α)
    (hf : ∀ x b x', f x b = some x' → P x → P x') :
    ∀ (l : List β) (a a' : α),
      l.foldl (fun acc b => acc.bind (fun s => f s b)) (some a) = some a' →
      P a → P a' := by
  intro l
  induction l with
  | nil =>
    intro a a' h hp
    rw [List.foldl_nil] at h
    rw [← Option.some.inj h]
    exact hp
  | cons b rest ih =>
    intro a a' h hp
    rw [List.foldl_cons] at h
    cases hab : f a b with
    | none =>
      rw [show (some a).bind (fun s => f s b) = none by rw [Option.some_bind, hab]] at h
      rw [foldl_bind_none_generic] at h
      simp at h
    | some a1 =>
      rw [show (some a).bind (fun s => f s b) = some a1 by rw [Option.some_bind, hab]] at h
      exact ih a1 a' h (hf a b a1 hab hp)

end FoldHelpers

section WidthLemmas

open PerfStatCounters

theorem cpuPerfOutputs_length (dt : ℚ) (a : CPUPerfAggs) (v : List ℚ) :
    (cpuPerfOutputs dt a v).length = v.length := by
  simp [cpuPerfOutputs, List.length_set]

theorem corePerfRead_values_length (st st' : CorePerfState) (active : Bool)
    (now nowReact : ℤ) (instOs cacheOs : Nat → PerfOpenResult)
    (instReads cacheReads : Nat → Option Nat)
    (h : corePerfReadFromSystem st active now nowReact instOs cacheOs instReads cacheReads
      = some st') : st'.values.length = 2 := by
  unfold corePerfReadFromSystem at h
  dsimp only at h
  split at h
  · cases Option.some.inj h
    rfl
  · split at h
    · cases hr : corePerfHandleReactivation { st with prevSampleTime := now } nowReact
          instOs cacheOs with
      | none => rw [hr] at h; simp at h
      | some st2 =>
        rw [hr, Option.map_some'] at h
        cases Option.some.inj h
        rfl
    · split at h
      · simp at h
      · split at h
        · simp at h
        · cases Option.some.inj h
          rfl

theorem cpuPerfRead_values_length (st st' : CPUPerfState) (now : ℤ)
    (status : Nat → Bool) (reads : Nat → Nat → Nat → Option Nat)
    (os : Nat → Nat → Nat → PerfOpenResult)
    (h : cpuPerfReadFromSystem st now status reads os = some st') :
    st'.values.length = st.values.length := by
  unfold cpuPerfReadFromSystem at h
  cases hl : cpuPerfLoop status reads os 0 st.coreIds st.groupCounters st.shutDown
      ⟨makeVector 4, makeVector 3, makeVector 4, makeVector 3⟩ with
  | none => rw [hl] at h; simp at h
  | some r =>
    rw [hl, Option.map_some'] at h
    cases Option.some.inj h
    exact cpuPerfOutputs_length _ _ _

end WidthLemmas

section ClaimC5

open PerfStatCounters

/-- C5: for every sensor variant and every acquisition call
(`updateValuesFromSystem`) during the sensor's lifetime, the published
values vector has length exactly equal to the width declared at
construction: 1 for `Time`, `CPUPowerSensor`, `CPUTempSensor` and
`DRAMPowerSensor`; 2 for `CorePerfSensor`; 16 for `CPUPerfSensor`. -/
theorem claim_C5_width_fixed_for_lifetime
    (tsec tnsec : ℤ) (tins : List (ℤ × ℤ))
    (pt0 : ℤ) (pins : List (List ℚ × ℤ))
    (dt0 : ℤ) (dins : List (ℚ × ℤ))
    (cins : List (List ℚ))
    (ct0 cnow cnr : ℤ) (cinstOs ccacheOs : Nat → PerfOpenResult) (cactive : Bool)
    (cir ccr : Nat → Option Nat) (cst0 cst : CorePerfState) (ccyc : List CoreCycleInput)
    (hc0 : mkCorePerfSensor ct0 cinstOs ccacheOs cactive cnow cnr cir ccr = some cst0)
    (hcrun : runCorePerfSensor cst0 ccyc = some cst)
    (pcoreIds : List Nat) (posOracle : Nat → Nat → Nat → PerfOpenResult) (qt0 : ℤ)
    (pst0 pst : CPUPerfState) (pcyc : List CPUPerfCycleInput)
    (hp0 : mkCPUPerfSensor pcoreIds posOracle qt0 = some pst0)
    (hprun : runCPUPerfSensor pst0 pcyc = some pst) :
    (runTimeSensor (mkTimeSensor tsec tnsec) tins).values.length = 1
    ∧ (runCPUPowerSensor (mkPowerSensor pt0) pins).values.length = 1
    ∧ (runDRAMPowerSensor (mkPowerSensor dt0) dins).values.length = 1
    ∧ (runCPUTempSensor mkCPUTempSensor cins).values.length = 1
    ∧ cst.values.length = 2
    ∧ pst.values.length = 16 := by
  refine ⟨?_, ?_, ?_, ?_, ?_, ?_⟩
  · refine foldl_preserves (fun s => s.values.length = 1) timeUpdate ?_ tins _ ?_
    · intro a b h
      simp [timeUpdate, timeReadFromSystem, List.length_set, h]
    · simp [mkTimeSensor, timeReadFromSystem, makeVector, List.length_set]
  · refine foldl_preserves (fun s => s.values.length = 1) cpuPowerUpdate ?_ pins _ ?_
    · intro a b h
      simp [cpuPowerUpdate, cpuPowerReadFromSystem, List.length_set, h]
    · simp [mkPowerSensor, makeVector]
  · refine foldl_preserves (fun s => s.values.length = 1) dramPowerUpdate ?_ dins _ ?_
    · intro a b h
      simp [dramPowerUpdate, dramPowerReadFromSystem, List.length_set, h]
    · simp [mkPowerSensor, makeVector]
  · refine foldl_preserves (fun s => s.values.length = 1) cpuTempUpdate ?_ cins _ ?_
    · intro a b _
      simp [cpuTempUpdate, cpuTempReadFromSystem, makeVector, List.length_set]
    · simp [mkCPUTempSensor, makeVector]
  · refine foldl_bind_preserves (fun s => s.values.length = 2) corePerfUpdate
      ?_ ccyc cst0 cst hcrun ?_
    · intro x b x' hx _
      exact corePerfRead_values_length _ _ _ _ _ _ _ _ _ hx
    · unfold mkCorePerfSensor at hc0
      split at hc0
      · simp at hc0
      · split at hc0
        · simp at hc0
        · exact corePerfRead_values_length _ _ _ _ _ _ _ _ _ hc0
  · refine foldl_bind_preserves (fun s => s.values.length = 16) cpuPerfUpdate
      ?_ pcyc pst0 pst hprun ?_
    · intro x b x' hx hlen
      have := cpuPerfRead_values_length _ _ _ _ _ _ hx
      rw [this]
      exact hlen
    · unfold mkCPUPerfSensor at hp0
      split at hp0
      · simp at hp0
      · cases Option.some.inj hp0
        simp [makeVector]

end ClaimC5

section ClaimC5Witness

open PerfStatCounters

/-- Witness for C5: concretely constructed sensors of every variant
(the per-core sensor built while its core is inactive; the aggregate
sensor over core 0) with empty acquisition histories. -/
theorem claim_C5_witness :
    (mkCorePerfSensor 0 (fun _ => PerfOpenResult.ok 3) (fun _ => PerfOpenResult.ok 4)
        false 0 0 (fun _ => none) (fun _ => none)
      = some { values := [0, 0], prevValues := [0, 0], instCtr := [⟨-1, 0, 0⟩],
               cacheCtr := [⟨-1, 0, 0⟩, ⟨-1, 0, 0⟩], shutDown := true, prevSampleTime := 0 })
    ∧ (runCorePerfSensor
        { values := [0, 0], prevValues := [0, 0], instCtr := [⟨-1, 0, 0⟩],
          cacheCtr := [⟨-1, 0, 0⟩, ⟨-1, 0, 0⟩], shutDown := true, prevSampleTime := 0 } []
      = some { values := [0, 0], prevValues := [0, 0], instCtr := [⟨-1, 0, 0⟩],
               cacheCtr := [⟨-1, 0, 0⟩, ⟨-1, 0, 0⟩], shutDown := true, prevSampleTime := 0 })
    ∧ (mkCPUPerfSensor [0] (fun _ _ _ => PerfOpenResult.ok 5) 0
      = some { values := makeVector 16, prevValues := makeVector 16, coreIds := [0],
               shutDown := [false],
               groupCounters :=
                 [[[⟨5, 0, 0⟩, ⟨5, 0, 0⟩, ⟨5, 0, 0⟩, ⟨5, 0, 0⟩],
                   [⟨5, 0, 0⟩, ⟨5, 0, 0⟩, ⟨5, 0, 0⟩],
                   [⟨5, 0, 0⟩, ⟨5, 0, 0⟩, ⟨5, 0, 0⟩, ⟨5, 0, 0⟩],
                   [⟨5, 0, 0⟩, ⟨5, 0, 0⟩, ⟨5, 0, 0⟩]]],
               prevSampleTime := 0 })
    ∧ (runCPUPerfSensor
        { values := makeVector 16, prevValues := makeVector 16, coreIds := [0],
          shutDown := [false],
          groupCounters :=
            [[[⟨5, 0, 0⟩, ⟨5, 0, 0⟩, ⟨5, 0, 0⟩, ⟨5, 0, 0⟩],
              [⟨5, 0, 0⟩, ⟨5, 0, 0⟩, ⟨5, 0, 0⟩],
              [⟨5, 0, 0⟩, ⟨5, 0, 0⟩, ⟨5, 0, 0⟩, ⟨5, 0, 0⟩],
              [⟨5, 0, 0⟩, ⟨5, 0, 0⟩, ⟨5, 0, 0⟩]]],
          prevSampleTime := 0 } []
      = some { values := makeVector 16, prevValues := makeVector 16, coreIds := [0],
               shutDown := [false],
               groupCounters :=
                 [[[⟨5, 0, 0⟩, ⟨5, 0, 0⟩, ⟨5, 0, 0⟩, ⟨5, 0, 0⟩],
                   [⟨5, 0, 0⟩, ⟨5, 0, 0⟩, ⟨5, 0, 0⟩],
                   [⟨5, 0, 0⟩, ⟨5, 0, 0⟩, ⟨5, 0, 0⟩, ⟨5, 0, 0⟩],
                   [⟨5, 0, 0⟩, ⟨5, 0, 0⟩, ⟨5, 0, 0⟩]]],
               prevSampleTime := 0 })
    ∧ ((runTimeSensor (mkTimeSensor 0 0) []).values.length = 1
      ∧ (runCPUPowerSensor (mkPowerSensor 0) []).values.length = 1
      ∧ (runDRAMPowerSensor (mkPowerSensor 0) []).values.length = 1
      ∧ (runCPUTempSensor mkCPUTempSensor []).values.length = 1
      ∧ ({ values := [(0 : ℚ), 0], prevValues := [0, 0], instCtr := [⟨-1, 0, 0⟩],
           cacheCtr := [⟨-1, 0, 0⟩, ⟨-1, 0, 0⟩], shutDown := true,
           prevSampleTime := 0 } : CorePerfState).values.length = 2
      ∧ ({ values := makeVector 16, prevValues := makeVector 16, coreIds := [0],
           shutDown := [false],
           groupCounters :=
             [[[⟨5, 0, 0⟩, ⟨5, 0, 0⟩, ⟨5, 0, 0⟩, ⟨5, 0, 0⟩],
               [⟨5, 0, 0⟩, ⟨5, 0, 0⟩, ⟨5, 0, 0⟩],
               [⟨5, 0, 0⟩, ⟨5, 0, 0⟩, ⟨5, 0, 0⟩, ⟨5, 0, 0⟩],
               [⟨5, 0, 0⟩, ⟨5, 0, 0⟩, ⟨5, 0, 0⟩]]],
           prevSampleTime := 0 } : CPUPerfState).values.length = 16) :=
  ⟨rfl, rfl, rfl, rfl,
   claim_C5_width_fixed_for_lifetime 0 0 [] 0 [] 0 [] []
     0 0 0 (fun _ => PerfOpenResult.ok 3) (fun _ => PerfOpenResult.ok 4) false
     (fun _ => none) (fun _ => none)
     { values := [0, 0], prevValues := [0, 0], instCtr := [⟨-1, 0, 0⟩],
       cacheCtr := [⟨-1, 0, 0⟩, ⟨-1, 0, 0⟩], shutDown := true, prevSampleTime := 0 }
     { values := [0, 0], prevValues := [0, 0], instCtr := [⟨-1, 0, 0⟩],
       cacheCtr := [⟨-1, 0, 0⟩, ⟨-1, 0, 0⟩], shutDown := true, prevSampleTime := 0 }
     [] rfl rfl
     [0] (fun _ _ _ => PerfOpenResult.ok 5) 0
     { values := makeVector 16, prevValues := makeVector 16, coreIds := [0],
       shutDown := [false],
       groupCounters :=
         [[[⟨5, 0, 0⟩, ⟨5, 0, 0⟩, ⟨5, 0, 0⟩, ⟨5, 0, 0⟩],
           [⟨5, 0, 0⟩, ⟨5, 0, 0⟩, ⟨5, 0, 0⟩],
           [⟨5, 0, 0⟩, ⟨5, 0, 0⟩, ⟨5, 0, 0⟩, ⟨5, 0, 0⟩],
           [⟨5, 0, 0⟩, ⟨5, 0, 0⟩, ⟨5, 0, 0⟩]]],
       prevSampleTime := 0 }
     { values := makeVector 16, prevValues := makeVector 16, coreIds := [0],
       shutDown := [false],
       groupCounters :=
         [[[⟨5, 0, 0⟩, ⟨5, 0, 0⟩, ⟨5, 0, 0⟩, ⟨5, 0, 0⟩],
           [⟨5, 0, 0⟩, ⟨5, 0, 0⟩, ⟨5, 0, 0⟩],
           [⟨5, 0, 0⟩, ⟨5, 0, 0⟩, ⟨5, 0, 0⟩, ⟨5, 0, 0⟩],
           [⟨5, 0, 0⟩, ⟨5, 0, 0⟩, ⟨5, 0, 0⟩]]],
       prevSampleTime := 0 }
     [] rfl rfl⟩

end ClaimC5Witness

section ClaimC10

open PerfStatCounters

theorem cpuPerfLoop_eq_pos (status : Nat → Bool) (reads : Nat → Nat → Nat → Option Nat)
    (os : Nat → Nat → Nat → PerfOpenResult) :
    ∀ (rest : List Nat) (i : Nat) (gcs : List (List (List PerfSlot))) (sd : List Bool)
      (aggs : CPUPerfAggs),
      rest = List.range' i rest.length →
      cpuPerfLoop status reads os i rest gcs sd aggs
        = cpuPerfLoopPos status reads os i rest gcs sd aggs := by
  intro rest
  induction rest with
  | nil => intro i gcs sd aggs _; rfl
  | cons coreId rest' ih =>
    intro i gcs sd aggs hid
    rw [List.length_cons, List.range'_succ] at hid
    obtain ⟨hc, hrest⟩ := List.cons.inj hid
    subst hc
    cases hsb : status coreId with
    | false =>
      simp only [cpuPerfLoop, cpuPerfLoopPos, hsb]
      cases hsd2 : sd.getD coreId false with
      | false =>
        simp only [hsd2]
        exact ih (coreId + 1) _ _ aggs hrest
      | true =>
        simp only [hsd2]
        exact ih (coreId + 1) gcs sd aggs hrest
    | true =>
      simp only [cpuPerfLoop, cpuPerfLoopPos, hsb]
      cases hr1 : (if sd.getD coreId false = true then
          cpuPerfHandleReactivation gcs sd coreId (os coreId) else some (gcs, sd)) with
      | none => rfl
      | some r1 =>
        dsimp only
        cases hg0 : updateCounters ((r1.1.getD coreId []).getD 0 []) (reads coreId 0) with
        | none => rfl
        | some g0 =>
          cases hg1 : updateCounters ((r1.1.getD coreId []).getD 1 []) (reads coreId 1) with
          | none => rfl
          | some g1 =>
            cases hg2 : updateCounters ((r1.1.getD coreId []).getD 2 []) (reads coreId 2) with
            | none => rfl
            | some g2 =>
              cases hg3 : updateCounters ((r1.1.getD coreId []).getD 3 []) (reads coreId 3) with
              | none => rfl
              | some g3 =>
                exact ih (coreId + 1) _ _ _ hrest

/-- C10: `CPUPerfSensor::handleShutDown` and `handleReactivation` index
the per-core shutdown flags and counter-group arrays by the core's
numeric id, while the sampling loop stores and iterates them by position
in the constructed `coreIds` list.  Under the precondition that
`coreIds` is the identity sequence 0, 1, …, n−1 (with both per-core
arrays of length n), every such access is in bounds and hits exactly the
position belonging to that core, and the whole read cycle coincides with
the position-indexed semantics (`cpuPerfReadFromSystemPos`). -/
theorem claim_C10_handler_indexing_safe_under_identity
    (st : CPUPerfState) (n : Nat) (now : ℤ) (status : Nat → Bool)
    (reads : Nat → Nat → Nat → Option Nat) (os : Nat → Nat → Nat → PerfOpenResult)
    (hids : st.coreIds = List.range n)
    (hsd : st.shutDown.length = n) (hgc : st.groupCounters.length = n) :
    (∀ i, i < n → st.coreIds.getD i 0 = i
        ∧ st.coreIds.getD i 0 < st.shutDown.length
        ∧ st.coreIds.getD i 0 < st.groupCounters.length)
    ∧ cpuPerfReadFromSystem st now status reads os
        = cpuPerfReadFromSystemPos st now status reads os := by
  constructor
  · intro i hi
    rw [hids, listGetD_range n i hi]
    exact ⟨rfl, by rw [hsd]; exact hi, by rw [hgc]; exact hi⟩
  · unfold cpuPerfReadFromSystem cpuPerfReadFromSystemPos
    rw [cpuPerfLoop_eq_pos status reads os st.coreIds 0 st.groupCounters st.shutDown _ ?_]
    rw [hids, List.range_eq_range', List.length_range']

/-- Witness for C10: a two-core aggregate sensor with identity core
ids. -/
theorem claim_C10_witness :
    ([0, 1] : List Nat) = List.range 2
    ∧ ([false, false] : List Bool).length = 2
    ∧ ([[[(⟨5, 0, 0⟩ : PerfSlot)], [⟨5, 0, 0⟩], [⟨5, 0, 0⟩], [⟨5, 0, 0⟩]],
        [[⟨6, 0, 0⟩], [⟨6, 0, 0⟩], [⟨6, 0, 0⟩], [⟨6, 0, 0⟩]]]).length = 2
    ∧ ((∀ i, i < 2 →
          ([0, 1] : List Nat).getD i 0 = i
            ∧ ([0, 1] : List Nat).getD i 0 < 2
            ∧ ([0, 1] : List Nat).getD i 0 < 2)
      ∧ cpuPerfReadFromSystem
            { values := makeVector 16, prevValues := makeVector 16, coreIds := [0, 1],
              shutDown := [false, false],
              groupCounters := [[[⟨5, 0, 0⟩], [⟨5, 0, 0⟩], [⟨5, 0, 0⟩], [⟨5, 0, 0⟩]],
                                [[⟨6, 0, 0⟩], [⟨6, 0, 0⟩], [⟨6, 0, 0⟩], [⟨6, 0, 0⟩]]],
              prevSampleTime := 0 } 1 (fun _ => true) (fun _ _ _ => some 2)
            (fun _ _ _ => PerfOpenResult.ok 7)
          = cpuPerfReadFromSystemPos
            { values := makeVector 16, prevValues := makeVector 16, coreIds := [0, 1],
              shutDown := [false, false],
              groupCounters := [[[⟨5, 0, 0⟩], [⟨5, 0, 0⟩], [⟨5, 0, 0⟩], [⟨5, 0, 0⟩]],
                                [[⟨6, 0, 0⟩], [⟨6, 0, 0⟩], [⟨6, 0, 0⟩], [⟨6, 0, 0⟩]]],
              prevSampleTime := 0 } 1 (fun _ => true) (fun _ _ _ => some 2)
            (fun _ _ _ => PerfOpenResult.ok 7)) :=
  ⟨by decide, by decide, by decide,
   claim_C10_handler_indexing_safe_under_identity
     { values := makeVector 16, prevValues := makeVector 16, coreIds := [0, 1],
       shutDown := [false, false],
       groupCounters := [[[⟨5, 0, 0⟩], [⟨5, 0, 0⟩], [⟨5, 0, 0⟩], [⟨5, 0, 0⟩]],
                         [[⟨6, 0, 0⟩], [⟨6, 0, 0⟩], [⟨6, 0, 0⟩], [⟨6, 0, 0⟩]]],
       prevSampleTime := 0 } 2 1 (fun _ => true) (fun _ _ _ => some 2)
     (fun _ _ _ => PerfOpenResult.ok 7) (by decide) (by decide) (by decide)⟩

end ClaimC10

section ClaimC6Helpers

open PerfStatCounters

theorem setExcept_preserved {α : Type} (d : α) (a b : List α) (k i : Nat) (x y : α)
    (hlen : a.length = b.length)
    (hexc : ∀ j, j ≠ k → a.getD j d = b.getD j d)
    (hxy : i ≠ k → x = y) :
    (a.set i x).length = (b.set i y).length
    ∧ ∀ j, j ≠ k → (a.set i x).getD j d = (b.set i y).getD j d := by
  constructor
  · rw [List.length_set, List.length_set, hlen]
  · intro j hj
    by_cases hij : i = j
    · subst hij
      rw [hxy hj]
      by_cases hlt : i < a.length
      · rw [listGetD_set_self d a i y hlt, listGetD_set_self d b i y (hlen ▸ hlt)]
      · rw [listGetD_default d (a.set i y) i (by rw [List.length_set]; omega),
           listGetD_default d (b.set i y) i (by rw [List.length_set]; omega)]
    · rw [listGetD_set_ne d a i j x (fun h => hij h),
         listGetD_set_ne d b i j y (fun h => hij h)]
      exact hexc j hj

theorem getD_set_self_of_length_eq {α : Type} (d : α) (a b : List α) (i : Nat) (x : α)
    (hlen : a.length = b.length) :
    (a.set i x).getD i d = (b.set i x).getD i d := by
  by_cases hlt : i < a.length
  · rw [listGetD_set_self d a i x hlt, listGetD_set_self d b i x (hlen ▸ hlt)]
  · rw [listGetD_default d (a.set i x) i (by rw [List.length_set]; omega),
       listGetD_default d (b.set i x) i (by rw [List.length_set]; omega)]

theorem cpuPerfHandleReactivation_congr
    (gcs gcs' : List (List (List PerfSlot))) (sd : List Bool) (c : Nat)
    (f : Nat → Nat → PerfOpenResult)
    (hrow : gcs.getD c [] = gcs'.getD c []) :
    (cpuPerfHandleReactivation gcs sd c f = none
        ∧ cpuPerfHandleReactivation gcs' sd c f = none)
    ∨ ∃ row2,
        cpuPerfHandleReactivation gcs sd c f = some (gcs.set c row2, sd.set c false)
        ∧ cpuPerfHandleReactivation gcs' sd c f = some (gcs'.set c row2, sd.set c false) := by
  unfold cpuPerfHandleReactivation
  rw [hrow]
  dsimp only
  cases hg0 : (createCounterFds ((gcs'.getD c []).getD 0 []) hwGroup0Types hwGroup0Events
      (f 0)).1 with
  | none => exact Or.inl ⟨rfl, rfl⟩
  | some g0 =>
    cases hg1 : (createCounterFds ((gcs'.getD c []).getD 1 []) hwGroup1Types hwGroup1Events
        (f 1)).1 with
    | none => exact Or.inl ⟨rfl, rfl⟩
    | some g1 =>
      cases hg2 : (createCounterFds ((gcs'.getD c []).getD 2 []) swGroup2Types swGroup2Events
          (f 2)).1 with
      | none => exact Or.inl ⟨rfl, rfl⟩
      | some g2 =>
        cases hg3 : (createCounterFds ((gcs'.getD c []).getD 3 []) swGroup3Types swGroup3Events
            (f 3)).1 with
        | none => exact Or.inl ⟨rfl, rfl⟩
        | some g3 =>
          exact Or.inr ⟨_, rfl, rfl⟩

end ClaimC6Helpers

section ClaimC6Loop

open PerfStatCounters

theorem cpuPerfLoop_inactive_independent
    (status : Nat → Bool) (reads reads' : Nat → Nat → Nat → Option Nat)
    (os : Nat → Nat → Nat → PerfOpenResult) (k : Nat)
    (hinactive : status k = false)
    (hreads : ∀ i j l, i ≠ k → reads' i j l = reads i j l) :
    ∀ (rest : List Nat) (i : Nat) (gcs gcs' : List (List (List PerfSlot)))
      (sd : List Bool) (aggs : CPUPerfAggs),
      rest = List.range' i rest.length →
      gcs.length = gcs'.length →
      (∀ j, j ≠ k → gcs.getD j [] = gcs'.getD j []) →
      (cpuPerfLoop status reads os i rest gcs sd aggs = none
          ∧ cpuPerfLoop status reads' os i rest gcs' sd aggs = none)
      ∨ (∃ g g' sd2 aggs2,
          cpuPerfLoop status reads os i rest gcs sd aggs = some (g, sd2, aggs2)
          ∧ cpuPerfLoop status reads' os i rest gcs' sd aggs = some (g', sd2, aggs2)
          ∧ g.length = g'.length
          ∧ (∀ j, j ≠ k → g.getD j [] = g'.getD j [])) := by
  intro rest
  induction rest with
  | nil =>
    intro i gcs gcs' sd aggs _ hlen hexc
    exact Or.inr ⟨gcs, gcs', sd, aggs, rfl, rfl, hlen, hexc⟩
  | cons coreId rest' ih =>
    intro i gcs gcs' sd aggs hid hlen hexc
    rw [List.length_cons, List.range'_succ] at hid
    obtain ⟨hc, hrest⟩ := List.cons.inj hid
    subst hc
    cases hsb : status coreId with
    | false =>
      simp only [cpuPerfLoop, hsb]
      cases hsd2 : sd.getD coreId false with
      | false =>
        simp only [hsd2]
        dsimp only [cpuPerfHandleShutDown]
        have hset := setExcept_preserved [] gcs gcs' k coreId
          ((gcs.getD coreId []).map PerfStatCounters.disable)
          ((gcs'.getD coreId []).map PerfStatCounters.disable)
          hlen hexc (fun hik => by rw [hexc coreId hik])
        exact ih (coreId + 1) _ _ _ aggs hrest hset.1 hset.2
      | true =>
        simp only [hsd2]
        exact ih (coreId + 1) gcs gcs' sd aggs hrest hlen hexc
    | true =>
      have hik : coreId ≠ k := by
        intro h
        rw [h, hinactive] at hsb
        exact Bool.noConfusion hsb
      simp only [cpuPerfLoop, hsb]
      have hscrut :
          ((if sd.getD coreId false = true then
              cpuPerfHandleReactivation gcs sd coreId (os coreId)
            else some (gcs, sd)) = none
            ∧ (if sd.getD coreId false = true then
                cpuPerfHandleReactivation gcs' sd coreId (os coreId)
              else some (gcs', sd)) = none)
          ∨ ∃ g1 g1' sdA,
              (if sd.getD coreId false = true then
                  cpuPerfHandleReactivation gcs sd coreId (os coreId)
                else some (gcs, sd)) = some (g1, sdA)
              ∧ (if sd.getD coreId false = true then
                  cpuPerfHandleReactivation gcs' sd coreId (os coreId)
                else some (gcs', sd)) = some (g1', sdA)
              ∧ g1.length = g1'.length
              ∧ (∀ j, j ≠ k → g1.getD j [] = g1'.getD j []) := by
        by_cases hsd2 : sd.getD coreId false = true
        · rw [if_pos hsd2, if_pos hsd2]
          rcases cpuPerfHandleReactivation_congr gcs gcs' sd coreId (os coreId)
              (hexc coreId hik) with ⟨h1, h2⟩ | ⟨row2, h1, h2⟩
          · exact Or.inl ⟨h1, h2⟩
          · refine Or.inr ⟨gcs.set coreId row2, gcs'.set coreId row2, sd.set coreId false,
              h1, h2, ?_, ?_⟩
            · rw [List.length_set, List.length_set, hlen]
            · exact (setExcept_preserved [] gcs gcs' k coreId row2 row2 hlen hexc
                (fun _ => rfl)).2
        · rw [if_neg hsd2, if_neg hsd2]
          exact Or.inr ⟨gcs, gcs', sd, rfl, rfl, hlen, hexc⟩
      rcases hscrut with ⟨h1, h2⟩ | ⟨g1, g1', sdA, h1, h2, hlen1, hexc1⟩
      · rw [h1, h2]
        exact Or.inl ⟨rfl, rfl⟩
      · rw [h1, h2]
        dsimp only
        have hrow1 : g1.getD coreId [] = g1'.getD coreId [] := hexc1 coreId hik
        have hr0 : reads' coreId 0 = reads coreId 0 := funext (fun l => hreads coreId 0 l hik)
        have hr1 : reads' coreId 1 = reads coreId 1 := funext (fun l => hreads coreId 1 l hik)
        have hr2 : reads' coreId 2 = reads coreId 2 := funext (fun l => hreads coreId 2 l hik)
        have hr3 : reads' coreId 3 = reads coreId 3 := funext (fun l => hreads coreId 3 l hik)
        rw [hrow1, hr0, hr1, hr2, hr3]
        cases hg0 : updateCounters ((g1'.getD coreId []).getD 0 []) (reads coreId 0) with
        | none => exact Or.inl ⟨rfl, rfl⟩
        | some u0 =>
          cases hg1 : updateCounters ((g1'.getD coreId []).getD 1 []) (reads coreId 1) with
          | none => exact Or.inl ⟨rfl, rfl⟩
          | some u1 =>
            cases hg2 : updateCounters ((g1'.getD coreId []).getD 2 []) (reads coreId 2) with
            | none => exact Or.inl ⟨rfl, rfl⟩
            | some u2 =>
              cases hg3 : updateCounters ((g1'.getD coreId []).getD 3 []) (reads coreId 3) with
              | none => exact Or.inl ⟨rfl, rfl⟩
              | some u3 =>
                have hset := setExcept_preserved [] g1 g1' k coreId
                  (((((g1'.getD coreId []).set 0 u0).set 1 u1).set 2 u2).set 3 u3)
                  (((((g1'.getD coreId []).set 0 u0).set 1 u1).set 2 u2).set 3 u3)
                  hlen1 hexc1 (fun _ => rfl)
                exact ih (coreId + 1) _ _ _ _ hrest hset.1 hset.2

end ClaimC6Loop

section ClaimC6

open PerfStatCounters

/-- C6: for every aggregate sampling cycle (with the identity core-id
list the handlers assume) and every monitored unit that is inactive that
cycle, none of that unit's counter deltas are added to the four
aggregate vectors: the published 16 outputs and the shutdown flags are
unchanged when the inactive unit's stored counter groups are replaced by
anything and its kernel read oracle is replaced by anything (even an
always-failing one), so the outputs reflect only active units'
contributions and no failure is raised on account of the inactive
unit. -/
theorem claim_C6_inactive_unit_contributes_nothing
    (st : CPUPerfState) (n k : Nat) (now : ℤ) (status : Nat → Bool)
    (reads reads' : Nat → Nat → Nat → Option Nat) (os : Nat → Nat → Nat → PerfOpenResult)
    (g' : List (List PerfSlot))
    (hids : st.coreIds = List.range n)
    (hk : k < n) (hinactive : status k = false)
    (hreads : ∀ i j l, i ≠ k → reads' i j l = reads i j l) :
    Option.map (fun r => r.values) (cpuPerfReadFromSystem st now status reads os)
      = Option.map (fun r => r.values)
          (cpuPerfReadFromSystem { st with groupCounters := st.groupCounters.set k g' }
            now status reads' os)
    ∧ Option.map (fun r => r.shutDown) (cpuPerfReadFromSystem st now status reads os)
      = Option.map (fun r => r.shutDown)
          (cpuPerfReadFromSystem { st with groupCounters := st.groupCounters.set k g' }
            now status reads' os) := by
  have hident : st.coreIds = List.range' 0 st.coreIds.length := by
    rw [hids, List.range_eq_range', List.length_range']
  have hlen : st.groupCounters.length = (st.groupCounters.set k g').length := by
    rw [List.length_set]
  have hexc : ∀ j, j ≠ k →
      st.groupCounters.getD j [] = (st.groupCounters.set k g').getD j [] := by
    intro j hj
    rw [listGetD_set_ne [] st.groupCounters k j g' (fun h => hj h.symm)]
  rcases cpuPerfLoop_inactive_independent status reads reads' os k hinactive hreads
      st.coreIds 0 st.groupCounters (st.groupCounters.set k g')
      st.shutDown ⟨makeVector 4, makeVector 3, makeVector 4, makeVector 3⟩
      hident hlen hexc with ⟨h1, h2⟩ | ⟨g, g2, sd2, aggs2, h1, h2, _, _⟩
  · unfold cpuPerfReadFromSystem
    dsimp only
    rw [h1, h2]
    exact ⟨rfl, rfl⟩
  · unfold cpuPerfReadFromSystem
    dsimp only
    rw [h1, h2]
    exact ⟨rfl, rfl⟩

/-- Witness for C6: two cores with identity ids, core 0 inactive; its
groups are replaced by an empty row and its read oracle by an
always-failing one. -/
theorem claim_C6_witness :
    (({ values := makeVector 16, prevValues := makeVector 16, coreIds := [0, 1],
          shutDown := [false, false],
          groupCounters := [[[⟨5, 0, 0⟩], [⟨5, 0, 0⟩], [⟨5, 0, 0⟩], [⟨5, 0, 0⟩]],
                            [[⟨6, 0, 0⟩], [⟨6, 0, 0⟩], [⟨6, 0, 0⟩], [⟨6, 0, 0⟩]]],
          prevSampleTime := 0 } : CPUPerfState).coreIds = List.range 2)
    ∧ (0 : Nat) < 2
    ∧ (fun c => decide (0 < c)) 0 = false
    ∧ (∀ (i j l : Nat), i ≠ 0 →
        (fun (i _ _ : Nat) => if i = 0 then (none : Option Nat) else some 1) i j l
          = (fun (_ _ _ : Nat) => (some 1 : Option Nat)) i j l)
    ∧ (Option.map (fun r => r.values)
          (cpuPerfReadFromSystem
            { values := makeVector 16, prevValues := makeVector 16, coreIds := [0, 1],
              shutDown := [false, false],
              groupCounters := [[[⟨5, 0, 0⟩], [⟨5, 0, 0⟩], [⟨5, 0, 0⟩], [⟨5, 0, 0⟩]],
                                [[⟨6, 0, 0⟩], [⟨6, 0, 0⟩], [⟨6, 0, 0⟩], [⟨6, 0, 0⟩]]],
              prevSampleTime := 0 } 1 (fun c => decide (0 < c))
            (fun (_ _ _ : Nat) => (some 1 : Option Nat)) (fun _ _ _ => PerfOpenResult.ok 7))
        = Option.map (fun r => r.values)
          (cpuPerfReadFromSystem
            { values := makeVector 16, prevValues := makeVector 16, coreIds := [0, 1],
              shutDown := [false, false],
              groupCounters :=
                ([[[(⟨5, 0, 0⟩ : PerfSlot)], [⟨5, 0, 0⟩], [⟨5, 0, 0⟩], [⟨5, 0, 0⟩]],
                  [[⟨6, 0, 0⟩], [⟨6, 0, 0⟩], [⟨6, 0, 0⟩], [⟨6, 0, 0⟩]]]).set 0 [],
              prevSampleTime := 0 } 1 (fun c => decide (0 < c))
            (fun (i _ _ : Nat) => if i = 0 then (none : Option Nat) else some 1)
            (fun _ _ _ => PerfOpenResult.ok 7))
      ∧ Option.map (fun r => r.shutDown)
          (cpuPerfReadFromSystem
            { values := makeVector 16, prevValues := makeVector 16, coreIds := [0, 1],
              shutDown := [false, false],
              groupCounters := [[[⟨5, 0, 0⟩], [⟨5, 0, 0⟩], [⟨5, 0, 0⟩], [⟨5, 0, 0⟩]],
                                [[⟨6, 0, 0⟩], [⟨6, 0, 0⟩], [⟨6, 0, 0⟩], [⟨6, 0, 0⟩]]],
              prevSampleTime := 0 } 1 (fun c => decide (0 < c))
            (fun (_ _ _ : Nat) => (some 1 : Option Nat)) (fun _ _ _ => PerfOpenResult.ok 7))
        = Option.map (fun r => r.shutDown)
          (cpuPerfReadFromSystem
            { values := makeVector 16, prevValues := makeVector 16, coreIds := [0, 1],
              shutDown := [false, false],
              groupCounters :=
                ([[[(⟨5, 0, 0⟩ : PerfSlot)], [⟨5, 0, 0⟩], [⟨5, 0, 0⟩], [⟨5, 0, 0⟩]],
                  [[⟨6, 0, 0⟩], [⟨6, 0, 0⟩], [⟨6, 0, 0⟩], [⟨6, 0, 0⟩]]]).set 0 [],
              prevSampleTime := 0 } 1 (fun c => decide (0 < c))
            (fun (i _ _ : Nat) => if i = 0 then (none : Option Nat) else some 1)
            (fun _ _ _ => PerfOpenResult.ok 7))) :=
  ⟨by decide, by decide, by decide, fun i j l h => if_neg h,
   claim_C6_inactive_unit_contributes_nothing
     { values := makeVector 16, prevValues := makeVector 16, coreIds := [0, 1],
       shutDown := [false, false],
       groupCounters := [[[⟨5, 0, 0⟩], [⟨5, 0, 0⟩], [⟨5, 0, 0⟩], [⟨5, 0, 0⟩]],
                         [[⟨6, 0, 0⟩], [⟨6, 0, 0⟩], [⟨6, 0, 0⟩], [⟨6, 0, 0⟩]]],
       prevSampleTime := 0 } 2 0 1 (fun c => decide (0 < c))
     (fun (_ _ _ : Nat) => (some 1 : Option Nat))
     (fun (i _ _ : Nat) => if i = 0 then (none : Option Nat) else some 1)
     (fun _ _ _ => PerfOpenResult.ok 7) []
     (by decide) (by decide) (by decide) (fun i j l h => if_neg h)⟩

end ClaimC6
